import Mathlib

/-!
# Signaling event bridge of `PeerConnection` (src/src/peerconnection.cc)

A shallow embedding of the methods of `PeerConnection` and of its dispatcher
`On`.  A method run is a function from the object's fields and the call's
arguments to the new fields together with the list of observable effects it
performed, in program order: exceptions scheduled with `Nan::ThrowError`,
consumer callbacks invoked, and calls made into the engine.

Two facts about the libraries the source is written against shape the model.

* `Nan::ThrowError` schedules an exception for the host and returns to its
  caller.  A method stops there only when the source writes
  `return Nan::ThrowError(...)`; otherwise the following statements run.
* Dereferencing a null pointer or an empty handle, handing an empty handle to
  the host as a value, or calling `Get` through a handle cast to `v8::Object`
  from a value that is not an object has no defined behaviour.  A run that
  reaches such a point ends there with `fault := true`.

Consumer callbacks are identified by a number; invoking one is recorded as an
effect, its body belongs to the consumer and is not run.
-/

namespace WebRtcJs

/-! ## Host values -/

/-- Values of the host scripting environment, as far as the source inspects
them.  `number n` is a number with the integral value `n`, `nonInteger` any
other number; `error` is what `Nan::Error` builds, `mediaStream` what
`MediaStream::New` builds. -/
inductive JsValue where
  | undefined
  | null
  | boolean (b : Bool)
  | number (n : Int)
  | nonInteger
  | string (s : String)
  | function (id : Nat)
  | object (fields : List (String × JsValue))
  | error (message : String)
  | mediaStream (handle : Nat)

/-- A `v8::Local` handle: `none` is the empty handle. -/
abbrev Local := Option JsValue

/-- Expression `handle.IsEmpty()`. -/
def IsEmpty (l : Local) : Bool :=
  match l with
  | none => true
  | some _ => false

/-- Expression `handle->IsFunction()`. -/
def IsFunction (l : Local) : Bool :=
  match l with
  | some (.function _) => true
  | _ => false

/-- Expression `handle->IsObject()`: functions, error objects and wrapped streams are
objects too. -/
def IsObject (l : Local) : Bool :=
  match l with
  | some (.object _) => true
  | some (.function _) => true
  | some (.error _) => true
  | some (.mediaStream _) => true
  | _ => false

/-- Expression `handle->IsString()`. -/
def IsString (l : Local) : Bool :=
  match l with
  | some (.string _) => true
  | _ => false

/-- Expression `handle->IsInt32()`. -/
def IsInt32 (l : Local) : Bool :=
  match l with
  | some (.number n) => decide (-2147483648 ≤ n ∧ n ≤ 2147483647)
  | _ => false

/-- Expression `v8::Local<v8::Function>::Cast(handle)` followed by storing it in a
`Nan::Persistent<v8::Function>`: the stored function, if the value is one. -/
def CastFunction (l : Local) : Option Nat :=
  match l with
  | some (.function id) => some id
  | _ => none

/-- Expression `info[i]`: the i-th argument of the call, `undefined` past the end; never
an empty handle. -/
def arg (args : List JsValue) (i : Nat) : Local :=
  some (args.getD i .undefined)

/-- Property lookup in a field list. -/
def lookupField (fields : List (String × JsValue)) (key : String) : JsValue :=
  match fields with
  | [] => .undefined
  | (k, v) :: rest => if k = key then v else lookupField rest key

/-- Expression `obj->Get(key)` on an object: the field's value, `undefined` when
the object has no such field.  Functions, error objects and wrapped streams
are taken to have none of the fields the methods look up. -/
def Get (obj : JsValue) (key : String) : Local :=
  match obj with
  | .object fields => some (lookupField fields key)
  | _ => some .undefined

/-- Conversions performed by the host, which the source calls and does not
implement: `value->ToString()` for a value that is not a string,
`value->ToInt32()` for a value that is not a 32-bit integer, and
`v8::JSON::Parse` (an empty handle when the text does not parse).
`JSONParseError` is the SyntaxError the host raises for a text that does not
parse. -/
structure Host where
  ToString : JsValue → String
  ToInt32 : JsValue → Int
  JSONParse : String → Local
  JSONParseError : String → JsValue

/-- Expression `value->ToString()` read as UTF-8 text: a string is returned as it is. -/
def ToString (host : Host) (v : JsValue) : String :=
  match v with
  | .string s => s
  | other => host.ToString other

/-- Expression `value->ToInt32()->Value()`: a 32-bit integer is returned as it is. -/
def ToInt32 (host : Host) (v : JsValue) : Int :=
  if IsInt32 (some v) then
    match v with
    | .number n => n
    | other => host.ToInt32 other
  else host.ToInt32 v

/-! ## The engine -/

/-- Enumeration `webrtc::PeerConnectionInterface::SignalingState`. -/
inductive SignalingState where
  | kStable
  | kHaveLocalOffer
  | kHaveLocalPrAnswer
  | kHaveRemoteOffer
  | kHaveRemotePrAnswer
  | kClosed
  deriving DecidableEq, Repr

/-- What the external engine answers to the calls the bridge makes into it.
`CreatePeerConnection`, `CreateSessionDescription` and `CreateIceCandidate`
say whether a non-null object comes back. -/
structure Engine where
  CreatePeerConnection : Bool
  CreateSessionDescription : String → String → Bool
  CreateIceCandidate : String → Int → String → Bool
  AddIceCandidate : Option (String × Int × String) → Bool
  GetStats : Bool
  AddStream : Nat → Bool
  signaling_state : SignalingState

/-! ## Effects and state -/

/-- Observable steps of a run, in program order.  `SetReference` is
`EventEmitter::SetReference(true)`; `ThrowError v` is `Nan::ThrowError` with
the value thrown (the text overloads throw `error text`), or an exception the
host raises inside `v8::JSON::Parse`; `Call fn argv` is a consumer callback
invoked with the handles passed to it; the remaining effects are calls into
the engine, where a description or a
candidate `none` is a null pointer. -/
inductive Effect where
  | SetReference
  | ThrowError (value : JsValue)
  | Call (fn : Nat) (argv : List Local)
  | CreatePeerConnection
  | CreateOffer
  | CreateAnswer
  | SetLocalDescription (desc : Option (String × String))
  | SetRemoteDescription (desc : Option (String × String))
  | AddIceCandidate (candidate : Option (String × Int × String))
  | GetStats
  | AddStream (stream : Nat)
  | RemoveStream (stream : Nat)
  | Close

/-- The fields of a `PeerConnection` the methods read and write.
`peer_connection_` and `constraints_` say whether the pointer is non-null; a
`Nan::Persistent<v8::Function>` holds at most one function. -/
structure PeerConnection where
  peer_connection_ : Bool
  constraints_ : Bool
  offer_cb_ : Option Nat
  offer_err_cb_ : Option Nat
  answer_cb_ : Option Nat
  answer_err_cb_ : Option Nat
  local_sdp_cb_ : Option Nat
  local_sdp_err_cb_ : Option Nat
  remote_sdp_cb_ : Option Nat
  remote_sdp_err_cb_ : Option Nat
  onstats_ : Option Nat
  onaddstream_ : Option Nat
  onremovestream_ : Option Nat
  onicecandidate_ : Option Nat
  oniceconnectionstatechange_ : Option Nat
  onsignalingstatechange_ : Option Nat
  onnegotiationneeded_ : Option Nat
  local_sdp_ : Local
  remote_sdp_ : Local

/-- The result of running a method: the fields afterwards, the effects
performed, whether the run ended at a point without defined behaviour, and the
value handed back through `info.GetReturnValue()`. -/
structure Run where
  self : PeerConnection
  trace : List Effect
  fault : Bool
  value : JsValue

/-- The callbacks a trace invokes, in order. -/
def invoked (t : List Effect) : List Nat :=
  t.filterMap fun e =>
    match e with
    | .Call fn _ => some fn
    | _ => none

/-- The values a trace throws, in order. -/
def thrown (t : List Effect) : List JsValue :=
  t.filterMap fun e =>
    match e with
    | .ThrowError v => some v
    | _ => none

/-- The constructor `PeerConnection::PeerConnection`: constraints are built,
the six observers are created, no engine handle and no callback yet. -/
def PeerConnection.new : PeerConnection :=
  { peer_connection_ := false
    constraints_ := true
    offer_cb_ := none
    offer_err_cb_ := none
    answer_cb_ := none
    answer_err_cb_ := none
    local_sdp_cb_ := none
    local_sdp_err_cb_ := none
    remote_sdp_cb_ := none
    remote_sdp_err_cb_ := none
    onstats_ := none
    onaddstream_ := none
    onremovestream_ := none
    onicecandidate_ := none
    oniceconnectionstatechange_ := none
    onsignalingstatechange_ := none
    onnegotiationneeded_ := none
    local_sdp_ := none
    remote_sdp_ := none }

/-! ## The dispatcher -/

/-- The `EventType` values `On` switches over. -/
inductive EventType where
  | kPeerConnectionAddStream
  | kPeerConnectionRemoveStream
  | kPeerConnectionStats
  | kPeerConnectionCreateOffer
  | kPeerConnectionCreateOfferError
  | kPeerConnectionCreateAnswer
  | kPeerConnectionCreateAnswerError
  | kPeerConnectionIceChange
  | kPeerConnectionIceCandidate
  | kPeerConnectionRenegotiation
  | kPeerConnectionSetLocalDescription
  | kPeerConnectionSetLocalDescriptionError
  | kPeerConnectionSetRemoteDescription
  | kPeerConnectionSetRemoteDescriptionError
  | kVideoSinkOnFrame
  | kPeerConnectionCreateClosed
  | kPeerConnectionDataChannel
  | kPeerConnectionIceGathering
  | kPeerConnectionSignalChange
  | kMediaStreamChanged
  | kMediaStreamTrackChanged
  deriving DecidableEq, Repr

/-- Modelled from the spec: the `Event` class is declared outside
peerconnection.cc.  An event is a discriminant and a payload; `text` is what
`Unwrap<std::string>()` yields (a C string) and `stream` what
`Unwrap<rtc::scoped_refptr<webrtc::MediaStreamInterface>>()` yields. -/
structure Event where
  type : EventType
  text : String
  stream : Nat

/-- What `v8::JSON::Parse` raises: nothing for a text that parses, the host's
SyntaxError for a text that does not (the handle it returns is then empty). -/
def JSONParseThrows (host : Host) (text : String) : List Effect :=
  match host.JSONParse text with
  | some _ => []
  | none => [.ThrowError (host.JSONParseError text)]

/-- A run that comes after the effects `before`. -/
def Run.after (before : List Effect) (r : Run) : Run :=
  ⟨r.self, before ++ r.trace, r.fault, r.value⟩

/-- The tail of `On` (lines 675-680): call `fn` with the first `argc` entries
of `argv` when it holds a function, otherwise throw `argv[0]` when the event
is an error event.  Handing an empty handle to the callback as an argument has
no defined behaviour: the run ends there, before the callback runs. -/
def dispatch (self : PeerConnection) (fn : Option Nat) (argc : Nat)
    (argv0 : Local) (isError : Bool) : Run :=
  match fn with
  | some f =>
    if decide (0 < argc) && IsEmpty argv0 then ⟨self, [], true, .undefined⟩
    else ⟨self, [.Call f (List.take argc [argv0])], false, .undefined⟩
  | none =>
    if isError then
      match argv0 with
      | some v => ⟨self, [.ThrowError v], false, .undefined⟩
      | none => ⟨self, [], true, .undefined⟩
    else ⟨self, [], false, .undefined⟩

/-- Method `PeerConnection::On` (lines 535-681). -/
def On (host : Host) (self : PeerConnection) (event : Event) : Run :=
  match event.type with
  | .kPeerConnectionAddStream =>
    dispatch self self.onaddstream_ 1 (some (.mediaStream event.stream)) false
  | .kPeerConnectionRemoveStream =>
    dispatch self self.onremovestream_ 1 (some (.mediaStream event.stream)) false
  | .kPeerConnectionStats =>
    dispatch self self.onstats_ 1 (some .null) false
  | .kPeerConnectionCreateOffer =>
    (dispatch { self with offer_cb_ := none, offer_err_cb_ := none }
      self.offer_cb_ 1 (host.JSONParse event.text) false).after
      (JSONParseThrows host event.text)
  | .kPeerConnectionCreateOfferError =>
    dispatch { self with offer_cb_ := none, offer_err_cb_ := none }
      self.offer_err_cb_ 1 (some (.error event.text)) true
  | .kPeerConnectionCreateAnswer =>
    (dispatch { self with answer_cb_ := none, answer_err_cb_ := none }
      self.answer_cb_ 1 (host.JSONParse event.text) false).after
      (JSONParseThrows host event.text)
  | .kPeerConnectionCreateAnswerError =>
    dispatch { self with answer_cb_ := none, answer_err_cb_ := none }
      self.answer_err_cb_ 1 (some (.error event.text)) true
  | .kPeerConnectionIceChange =>
    dispatch self self.oniceconnectionstatechange_ 0 none false
  | .kPeerConnectionIceCandidate =>
    if event.text.isEmpty then
      dispatch self self.onicecandidate_ 1 (some (.object [("candidate", .null)])) false
    else
      match host.JSONParse event.text with
      | some v =>
        dispatch self self.onicecandidate_ 1 (some (.object [("candidate", v)])) false
      | none => ⟨self, [.ThrowError (host.JSONParseError event.text)], true, .undefined⟩
  | .kPeerConnectionRenegotiation =>
    dispatch { self with onnegotiationneeded_ := none }
      self.onnegotiationneeded_ 0 none false
  | .kPeerConnectionSetLocalDescription =>
    dispatch { self with local_sdp_cb_ := none, local_sdp_err_cb_ := none }
      self.local_sdp_cb_ 0 none false
  | .kPeerConnectionSetLocalDescriptionError =>
    dispatch { self with local_sdp_cb_ := none, local_sdp_err_cb_ := none }
      self.local_sdp_err_cb_ 1 (some (.error event.text)) true
  | .kPeerConnectionSetRemoteDescription =>
    dispatch { self with remote_sdp_cb_ := none, remote_sdp_err_cb_ := none }
      self.remote_sdp_cb_ 0 none false
  | .kPeerConnectionSetRemoteDescriptionError =>
    dispatch { self with remote_sdp_cb_ := none, remote_sdp_err_cb_ := none }
      self.remote_sdp_err_cb_ 1 (some (.error event.text)) true
  | .kVideoSinkOnFrame => dispatch self none 0 none false
  | .kPeerConnectionCreateClosed => dispatch self none 0 none false
  | .kPeerConnectionDataChannel => dispatch self none 0 none false
  | .kPeerConnectionIceGathering => dispatch self none 0 none false
  | .kPeerConnectionSignalChange => dispatch self none 0 none false
  | .kMediaStreamChanged => dispatch self none 0 none false
  | .kMediaStreamTrackChanged => dispatch self none 0 none false

/-! ## Methods -/

/-- The result of `GetPeerConnection`: `ptr` says whether the pointer handed
back is non-null. -/
structure Fetched where
  self : PeerConnection
  trace : List Effect
  ptr : Bool
  fault : Bool

/-- Method `PeerConnection::GetPeerConnection` (lines 521-529): the engine handle,
created on first use.  `constraints_->ToConstraints()` dereferences
`constraints_`. -/
def GetPeerConnection (eng : Engine) (self : PeerConnection) : Fetched :=
  if !self.peer_connection_ then
    if !self.constraints_ then
      ⟨self, [.SetReference], false, true⟩
    else
      ⟨{ self with peer_connection_ := eng.CreatePeerConnection },
        [.SetReference, .CreatePeerConnection], eng.CreatePeerConnection, false⟩
  else ⟨self, [], true, false⟩

/-- Method `PeerConnection::CreateOffer` (lines 106-134). -/
def CreateOffer (eng : Engine) (self : PeerConnection) (args : List JsValue) : Run :=
  let self := { self with offer_cb_ := none, offer_err_cb_ := none }
  let got := GetPeerConnection eng self
  if got.fault then ⟨got.self, got.trace, true, .undefined⟩ else
  let self := got.self
  let t := got.trace ++
    (if !got.ptr then [.ThrowError (.error "Bad pointer to PeerConnectionInterface")] else [])
  let constraints := self.constraints_
  let self :=
    if !IsEmpty (arg args 0) && IsFunction (arg args 0) then
      { self with offer_cb_ := CastFunction (arg args 0) }
    else self
  let self :=
    if !IsEmpty (arg args 1) && IsFunction (arg args 1) then
      { self with offer_err_cb_ := CastFunction (arg args 1) }
    else self
  if !got.ptr || !constraints then ⟨self, t, true, .undefined⟩
  else ⟨self, t ++ [.CreateOffer], false, .undefined⟩

/-- Method `PeerConnection::CreateAnswer` (lines 136-164). -/
def CreateAnswer (eng : Engine) (self : PeerConnection) (args : List JsValue) : Run :=
  let self := { self with answer_cb_ := none, answer_err_cb_ := none }
  let got := GetPeerConnection eng self
  if got.fault then ⟨got.self, got.trace, true, .undefined⟩ else
  let self := got.self
  let t := got.trace ++
    (if !got.ptr then [.ThrowError (.error "Bad pointer to PeerConnectionInterface")] else [])
  let constraints := self.constraints_
  let self :=
    if !IsEmpty (arg args 0) && IsFunction (arg args 0) then
      { self with answer_cb_ := CastFunction (arg args 0) }
    else self
  let self :=
    if !IsEmpty (arg args 1) && IsFunction (arg args 1) then
      { self with answer_err_cb_ := CastFunction (arg args 1) }
    else self
  if !got.ptr || !constraints then ⟨self, t, true, .undefined⟩
  else ⟨self, t ++ [.CreateAnswer], false, .undefined⟩

/-- Method `PeerConnection::SetLocalDescription` (lines 166-220). -/
def SetLocalDescription (eng : Engine) (host : Host) (self : PeerConnection)
    (args : List JsValue) : Run :=
  let got := GetPeerConnection eng self
  if got.fault then ⟨got.self, got.trace, true, .undefined⟩ else
  let self := { got.self with local_sdp_cb_ := none, local_sdp_err_cb_ := none }
  let t := got.trace ++ (if !got.ptr then [.ThrowError (.error "Internal error")] else [])
  let t := t ++
    (if IsEmpty (arg args 0) || !IsObject (arg args 0) then
      [.ThrowError (.error "Invalid SessionDescription")] else [])
  if !IsObject (arg args 0) then ⟨self, t, true, .undefined⟩ else
  let desc_obj := args.getD 0 .undefined
  let type_value := Get desc_obj "type"
  let sdp_value := Get desc_obj "sdp"
  let t := t ++
    (if IsEmpty type_value || !IsString type_value then
      [.ThrowError (.error "Invalid SessionDescription type")] else [])
  let t := t ++
    (if IsEmpty sdp_value || !IsString sdp_value then
      [.ThrowError (.error "Invalid SessionDescription")] else [])
  let self :=
    if !IsEmpty (arg args 1) && IsFunction (arg args 1) then
      { self with local_sdp_cb_ := CastFunction (arg args 1) }
    else self
  let self :=
    if !IsEmpty (arg args 2) && IsFunction (arg args 2) then
      { self with local_sdp_err_cb_ := CastFunction (arg args 2) }
    else self
  match type_value, sdp_value with
  | some tv, some sv =>
    let type := ToString host tv
    let sdp := ToString host sv
    let desc : Option (String × String) :=
      if eng.CreateSessionDescription type sdp then some (type, sdp) else none
    let t := t ++
      (if desc.isNone then
        [.ThrowError (.error "webrtc::CreateSessionDescription failure")] else [])
    let self := { self with local_sdp_ := some desc_obj }
    if !got.ptr then ⟨self, t, true, .undefined⟩
    else ⟨self, t ++ [.SetLocalDescription desc], false, .undefined⟩
  | _, _ => ⟨self, t, true, .undefined⟩

/-- Method `PeerConnection::SetRemoteDescription` (lines 222-276). -/
def SetRemoteDescription (eng : Engine) (host : Host) (self : PeerConnection)
    (args : List JsValue) : Run :=
  let got := GetPeerConnection eng self
  if got.fault then ⟨got.self, got.trace, true, .undefined⟩ else
  let self := { got.self with remote_sdp_cb_ := none, remote_sdp_err_cb_ := none }
  let t := got.trace ++ (if !got.ptr then [.ThrowError (.error "Internal error")] else [])
  let t := t ++
    (if IsEmpty (arg args 0) || !IsObject (arg args 0) then
      [.ThrowError (.error "Invalid SessionDescription")] else [])
  if !IsObject (arg args 0) then ⟨self, t, true, .undefined⟩ else
  let desc_obj := args.getD 0 .undefined
  let type_value := Get desc_obj "type"
  let sdp_value := Get desc_obj "sdp"
  let t := t ++
    (if IsEmpty type_value || !IsString type_value then
      [.ThrowError (.error "Invalid SessionDescription type")] else [])
  let t := t ++
    (if IsEmpty sdp_value || !IsString sdp_value then
      [.ThrowError (.error "Invalid SessionDescription")] else [])
  let self :=
    if !IsEmpty (arg args 1) && IsFunction (arg args 1) then
      { self with remote_sdp_cb_ := CastFunction (arg args 1) }
    else self
  let self :=
    if !IsEmpty (arg args 2) && IsFunction (arg args 2) then
      { self with remote_sdp_err_cb_ := CastFunction (arg args 2) }
    else self
  match type_value, sdp_value with
  | some tv, some sv =>
    let type := ToString host tv
    let sdp := ToString host sv
    let desc : Option (String × String) :=
      if eng.CreateSessionDescription type sdp then some (type, sdp) else none
    let t := t ++
      (if desc.isNone then
        [.ThrowError (.error "webrtc::CreateSessionDescription failure")] else [])
    let self := { self with remote_sdp_ := some desc_obj }
    if !got.ptr then ⟨self, t, true, .undefined⟩
    else ⟨self, t ++ [.SetRemoteDescription desc], false, .undefined⟩
  | _, _ => ⟨self, t, true, .undefined⟩

/-- Method `PeerConnection::AddIceCandidate` (lines 278-335). -/
def AddIceCandidate (eng : Engine) (host : Host) (self : PeerConnection)
    (args : List JsValue) : Run :=
  let got := GetPeerConnection eng self
  if got.fault then ⟨got.self, got.trace, true, .undefined⟩ else
  let self := got.self
  let t := got.trace ++ (if !got.ptr then [.ThrowError (.error "Internal error")] else [])
  let t := t ++
    (if IsEmpty (arg args 0) || !IsObject (arg args 0) then
      [.ThrowError (.error "Invalid SDP")] else [])
  if !IsObject (arg args 0) then ⟨self, t, true, .undefined⟩ else
  let desc := args.getD 0 .undefined
  let sdpMid_value := Get desc "sdpMid"
  let t := t ++
    (if IsEmpty sdpMid_value || !IsString sdpMid_value then
      [.ThrowError (.error "Invalid sdpMid")] else [])
  let sdpMLineIndex_value := Get desc "sdpMLineIndex"
  let t := t ++
    (if IsEmpty sdpMLineIndex_value || !IsInt32 sdpMLineIndex_value then
      [.ThrowError (.error "Invalid sdpMLineIndex")] else [])
  let sdp_value := Get desc "candidate"
  let t := t ++
    (if IsEmpty sdp_value || !IsString sdp_value then
      [.ThrowError (.error "Invalid SDP")] else [])
  match sdpMLineIndex_value, sdpMid_value, sdp_value with
  | some iv, some mv, some sv =>
    let sdpMLineIndex := ToInt32 host iv
    let sdpMid := ToString host mv
    let sdp := ToString host sv
    let candidate : Option (String × Int × String) :=
      if eng.CreateIceCandidate sdpMid sdpMLineIndex sdp then
        some (sdpMid, sdpMLineIndex, sdp)
      else none
    let t := t ++
      (if candidate.isNone then [.ThrowError (.error "Invalid ICE candidate")] else [])
    if !got.ptr then ⟨self, t, true, .undefined⟩ else
    let t := t ++ [.AddIceCandidate candidate]
    let t := t ++
      (if !eng.AddIceCandidate candidate then
        [.ThrowError (.error "Failed to add ICE candidate")] else [])
    if !IsEmpty (arg args 1) && IsFunction (arg args 1) then
      match CastFunction (arg args 1) with
      | some success => ⟨self, t ++ [.Call success []], false, .undefined⟩
      | none => ⟨self, t, true, .undefined⟩
    else ⟨self, t, false, .undefined⟩
  | _, _, _ => ⟨self, t, true, .undefined⟩

/-- Method `PeerConnection::GetStats` (lines 337-358).  When the engine refuses, the
callback is taken from `onstats_` and called through the handle, which is
empty when `onstats_` holds nothing. -/
def GetStats (eng : Engine) (self : PeerConnection) (args : List JsValue) : Run :=
  let got := GetPeerConnection eng self
  if got.fault then ⟨got.self, got.trace, true, .undefined⟩ else
  let self := got.self
  let t := got.trace ++ (if !got.ptr then [.ThrowError (.error "Internal error")] else [])
  let self :=
    if !IsEmpty (arg args 0) && IsFunction (arg args 0) then
      { self with onstats_ := CastFunction (arg args 0) }
    else self
  if !got.ptr then ⟨self, t, true, .undefined⟩ else
  let t := t ++ [.GetStats]
  if !eng.GetStats then
    match self.onstats_ with
    | some callback =>
      ⟨{ self with onstats_ := none }, t ++ [.Call callback [some .null]], false, .undefined⟩
    | none => ⟨self, t, true, .undefined⟩
  else ⟨self, t, false, .undefined⟩

/-- Modelled from the spec: `MediaStream::Unwrap` is defined outside
peerconnection.cc; it gives back the stream handle a wrapped stream object
carries, and a null pointer for any other value. -/
def Unwrap (l : Local) : Option Nat :=
  match l with
  | some (.mediaStream h) => some h
  | _ => none

/-- Method `PeerConnection::AddStream` (lines 361-378). -/
def AddStream (eng : Engine) (self : PeerConnection) (args : List JsValue) : Run :=
  let media_stream := Unwrap (arg args 0)
  let got := GetPeerConnection eng self
  if got.fault then ⟨got.self, got.trace, true, .undefined⟩ else
  let self := got.self
  match media_stream with
  | none =>
    ⟨self, got.trace ++ [.ThrowError (.error "Bad pointer to MediaStreamInterface")],
      false, .undefined⟩
  | some stream =>
    if !got.ptr then
      ⟨self, got.trace ++ [.ThrowError (.error "Bad pointer to PeerConnectionInterface")],
        false, .undefined⟩
    else if !eng.AddStream stream then
      ⟨self, got.trace ++ [.AddStream stream, .ThrowError (.error "AddStream Failed")],
        false, .undefined⟩
    else ⟨self, got.trace ++ [.AddStream stream], false, .undefined⟩

/-- Method `PeerConnection::RemoveStream` (lines 380-393). -/
def RemoveStream (eng : Engine) (self : PeerConnection) (args : List JsValue) : Run :=
  let media_stream := Unwrap (arg args 0)
  let got := GetPeerConnection eng self
  if got.fault then ⟨got.self, got.trace, true, .undefined⟩ else
  let self := got.self
  match media_stream with
  | none =>
    ⟨self, got.trace ++ [.ThrowError (.error "Bad pointer to MediaStreamInterface")],
      false, .undefined⟩
  | some stream =>
    if !got.ptr then
      ⟨self, got.trace ++ [.ThrowError (.error "Bad pointer to PeerConnectionInterface")],
        false, .undefined⟩
    else ⟨self, got.trace ++ [.RemoveStream stream], false, .undefined⟩

/-- Method `PeerConnection::Close` (lines 395-403). -/
def Close (eng : Engine) (self : PeerConnection) : Run :=
  let got := GetPeerConnection eng self
  if got.fault then ⟨got.self, got.trace, true, .undefined⟩ else
  if !got.ptr then ⟨got.self, got.trace, false, .undefined⟩
  else ⟨got.self, got.trace ++ [.Close], false, .undefined⟩

/-- Method `PeerConnection::GetSignalingState` (lines 405-432): the accessor behind
`signalingState`. -/
def GetSignalingState (eng : Engine) (self : PeerConnection) : Run :=
  let got := GetPeerConnection eng self
  if got.fault then ⟨got.self, got.trace, true, .undefined⟩ else
  if !got.ptr then ⟨got.self, got.trace, false, .undefined⟩
  else
    match eng.signaling_state with
    | .kStable => ⟨got.self, got.trace, false, .string "stable"⟩
    | .kHaveLocalOffer => ⟨got.self, got.trace, false, .string "have-local-offer"⟩
    | .kHaveLocalPrAnswer => ⟨got.self, got.trace, false, .string "have-local-pranswer"⟩
    | .kHaveRemoteOffer => ⟨got.self, got.trace, false, .string "have-remote-offer"⟩
    | .kHaveRemotePrAnswer => ⟨got.self, got.trace, false, .string "have-remote-pranswer"⟩
    | .kClosed => ⟨got.self, got.trace, false, .string "closed"⟩

/-- Statement `info.GetReturnValue().Set(Nan::New<v8::Function>(persistent))`: the stored
function, `undefined` when the persistent handle is empty. -/
def returnFunction (slot : Option Nat) : JsValue :=
  match slot with
  | some f => .function f
  | none => .undefined

/-- Method `PeerConnection::GetOnRemoveStream` (lines 435-439). -/
def GetOnRemoveStream (self : PeerConnection) : Run :=
  ⟨self, [], false, returnFunction self.onremovestream_⟩

/-- Method `PeerConnection::SetOnNegotiationNeeded` (lines 448-455). -/
def SetOnNegotiationNeeded (self : PeerConnection) (value : JsValue) : Run :=
  let self := { self with onnegotiationneeded_ := none }
  if !IsEmpty (some value) && IsFunction (some value) then
    ⟨{ self with onnegotiationneeded_ := CastFunction (some value) }, [], false, .undefined⟩
  else ⟨self, [], false, .undefined⟩

/-- Method `PeerConnection::SetOnIceCandidate` (lines 464-471). -/
def SetOnIceCandidate (self : PeerConnection) (value : JsValue) : Run :=
  let self := { self with onicecandidate_ := none }
  if !IsEmpty (some value) && IsFunction (some value) then
    ⟨{ self with onicecandidate_ := CastFunction (some value) }, [], false, .undefined⟩
  else ⟨self, [], false, .undefined⟩

/-- Method `PeerConnection::SetOnIceConnectionStateChange` (lines 480-487). -/
def SetOnIceConnectionStateChange (self : PeerConnection) (value : JsValue) : Run :=
  let self := { self with oniceconnectionstatechange_ := none }
  if !IsEmpty (some value) && IsFunction (some value) then
    ⟨{ self with oniceconnectionstatechange_ := CastFunction (some value) }, [], false,
      .undefined⟩
  else ⟨self, [], false, .undefined⟩

/-- Method `PeerConnection::SetOnSignalingStateChange` (lines 496-503). -/
def SetOnSignalingStateChange (self : PeerConnection) (value : JsValue) : Run :=
  let self := { self with onsignalingstatechange_ := none }
  if !IsEmpty (some value) && IsFunction (some value) then
    ⟨{ self with onsignalingstatechange_ := CastFunction (some value) }, [], false, .undefined⟩
  else ⟨self, [], false, .undefined⟩

/-- Method `PeerConnection::SetOnAddStream` (lines 512-519). -/
def SetOnAddStream (self : PeerConnection) (value : JsValue) : Run :=
  let self := { self with onaddstream_ := none }
  if !IsEmpty (some value) && IsFunction (some value) then
    ⟨{ self with onaddstream_ := CastFunction (some value) }, [], false, .undefined⟩
  else ⟨self, [], false, .undefined⟩

/-! ## Vocabulary of the claims -/

/-- The four operation kinds that own a success/error callback slot. -/
inductive OpKind where
  | offer
  | answer
  | setLocalDescription
  | setRemoteDescription
  deriving DecidableEq, Repr

/-- The event with which the engine reports that an operation succeeded. -/
def OpKind.successEvent (K : OpKind) : EventType :=
  match K with
  | .offer => .kPeerConnectionCreateOffer
  | .answer => .kPeerConnectionCreateAnswer
  | .setLocalDescription => .kPeerConnectionSetLocalDescription
  | .setRemoteDescription => .kPeerConnectionSetRemoteDescription

/-- The event with which the engine reports that an operation failed. -/
def OpKind.errorEvent (K : OpKind) : EventType :=
  match K with
  | .offer => .kPeerConnectionCreateOfferError
  | .answer => .kPeerConnectionCreateAnswerError
  | .setLocalDescription => .kPeerConnectionSetLocalDescriptionError
  | .setRemoteDescription => .kPeerConnectionSetRemoteDescriptionError

/-- The success callback of a kind's slot. -/
def OpKind.successSlot (K : OpKind) (self : PeerConnection) : Option Nat :=
  match K with
  | .offer => self.offer_cb_
  | .answer => self.answer_cb_
  | .setLocalDescription => self.local_sdp_cb_
  | .setRemoteDescription => self.remote_sdp_cb_

/-- The error callback of a kind's slot. -/
def OpKind.errorSlot (K : OpKind) (self : PeerConnection) : Option Nat :=
  match K with
  | .offer => self.offer_err_cb_
  | .answer => self.answer_err_cb_
  | .setLocalDescription => self.local_sdp_err_cb_
  | .setRemoteDescription => self.remote_sdp_err_cb_

/-- The fields with both callbacks of a kind's slot emptied and everything
else as it was. -/
def OpKind.cleared (K : OpKind) (self : PeerConnection) : PeerConnection :=
  match K with
  | .offer => { self with offer_cb_ := none, offer_err_cb_ := none }
  | .answer => { self with answer_cb_ := none, answer_err_cb_ := none }
  | .setLocalDescription => { self with local_sdp_cb_ := none, local_sdp_err_cb_ := none }
  | .setRemoteDescription => { self with remote_sdp_cb_ := none, remote_sdp_err_cb_ := none }

/-- The arguments `On` passes to a success callback: the parsed session
description for offer and answer, none for the two description setters. -/
def OpKind.successArgs (K : OpKind) (host : Host) (text : String) : List Local :=
  match K with
  | .offer => [host.JSONParse text]
  | .answer => [host.JSONParse text]
  | .setLocalDescription => []
  | .setRemoteDescription => []

/-- Whether the text of a success event is a payload `On` can hand to the
success callback: for offer and answer the serialized session description has
to parse; the two description setters pass no payload. -/
def OpKind.payloadOk (K : OpKind) (host : Host) (text : String) : Bool :=
  match K with
  | .offer => (host.JSONParse text).isSome
  | .answer => (host.JSONParse text).isSome
  | .setLocalDescription => true
  | .setRemoteDescription => true

/-- The start call of a kind, given a description (used by the two setters
only) and the two callback arguments. -/
def OpKind.start (K : OpKind) (eng : Engine) (host : Host) (self : PeerConnection)
    (desc successCb errorCb : JsValue) : Run :=
  match K with
  | .offer => CreateOffer eng self [successCb, errorCb]
  | .answer => CreateAnswer eng self [successCb, errorCb]
  | .setLocalDescription => SetLocalDescription eng host self [desc, successCb, errorCb]
  | .setRemoteDescription => SetRemoteDescription eng host self [desc, successCb, errorCb]

/-- Events dispatched through `On` one after the other; a faulting dispatch
ends the sequence. -/
def OnAll (host : Host) (self : PeerConnection) (events : List Event) : Run :=
  match events with
  | [] => ⟨self, [], false, .undefined⟩
  | ev :: rest =>
    let first := On host self ev
    if first.fault then first
    else
      let others := OnAll host first.self rest
      ⟨others.self, first.trace ++ others.trace, others.fault, others.value⟩

/-- A host used for concrete runs.  Conversion to text follows the host
language for the primitive values; conversion to a 32-bit integer wraps an
integral number and gives `0` for anything else; the only text that parses
as JSON is `"null"`, and the SyntaxError for any other text carries the
message "Unexpected token". -/
def sampleHost : Host :=
  { ToString := fun v =>
      match v with
      | .undefined => "undefined"
      | .null => "null"
      | .boolean true => "true"
      | .boolean false => "false"
      | .number n => toString n
      | .nonInteger => "NaN"
      | .string s => s
      | .function _ => "function () {}"
      | .object _ => "[object Object]"
      | .error message => "Error: " ++ message
      | .mediaStream _ => "[object Object]"
    ToInt32 := fun v =>
      match v with
      | .number n => (n + 2147483648) % 4294967296 - 2147483648
      | _ => 0
    JSONParse := fun s => if s = "null" then some .null else none
    JSONParseError := fun _ => .error "Unexpected token" }

/-- An engine used for concrete runs: the handle can be created, every
description and candidate is accepted, every request succeeds. -/
def acceptingEngine : Engine :=
  { CreatePeerConnection := true
    CreateSessionDescription := fun _ _ => true
    CreateIceCandidate := fun _ _ _ => true
    AddIceCandidate := fun _ => true
    GetStats := true
    AddStream := fun _ => true
    signaling_state := .kStable }

/-- An engine used for concrete runs: the handle can be created, and every
other request is refused. -/
def refusingEngine : Engine :=
  { CreatePeerConnection := true
    CreateSessionDescription := fun _ _ => false
    CreateIceCandidate := fun _ _ _ => false
    AddIceCandidate := fun _ => false
    GetStats := false
    AddStream := fun _ => false
    signaling_state := .kStable }

/-- The label the `signalingState` accessor gives for an engine state. -/
def SignalingState.label (state : SignalingState) : String :=
  match state with
  | .kStable => "stable"
  | .kHaveLocalOffer => "have-local-offer"
  | .kHaveLocalPrAnswer => "have-local-pranswer"
  | .kHaveRemoteOffer => "have-remote-offer"
  | .kHaveRemotePrAnswer => "have-remote-pranswer"
  | .kClosed => "closed"

/-- Method `PeerConnection::GetOnNegotiationNeeded` (lines 442-446). -/
def GetOnNegotiationNeeded (self : PeerConnection) : Run :=
  ⟨self, [], false, returnFunction self.onnegotiationneeded_⟩

/-- Method `PeerConnection::GetOnIceCandidate` (lines 458-462). -/
def GetOnIceCandidate (self : PeerConnection) : Run :=
  ⟨self, [], false, returnFunction self.onicecandidate_⟩

/-- Method `PeerConnection::GetOnIceConnectionStateChange` (lines 474-478). -/
def GetOnIceConnectionStateChange (self : PeerConnection) : Run :=
  ⟨self, [], false, returnFunction self.oniceconnectionstatechange_⟩

/-- Method `PeerConnection::GetOnSignalingStateChange` (lines 490-494). -/
def GetOnSignalingStateChange (self : PeerConnection) : Run :=
  ⟨self, [], false, returnFunction self.onsignalingstatechange_⟩

/-- Method `PeerConnection::GetOnAddStream` (lines 506-510). -/
def GetOnAddStream (self : PeerConnection) : Run :=
  ⟨self, [], false, returnFunction self.onaddstream_⟩

/-- The six event kinds a consumer can subscribe to. -/
inductive SubscriptionKind where
  | streamAdded
  | streamRemoved
  | iceCandidate
  | iceStateChanged
  | signalingStateChanged
  | renegotiationNeeded
  deriving DecidableEq, Repr

/-- The event type with which the engine's observer reports a kind. -/
def SubscriptionKind.event (k : SubscriptionKind) : EventType :=
  match k with
  | .streamAdded => .kPeerConnectionAddStream
  | .streamRemoved => .kPeerConnectionRemoveStream
  | .iceCandidate => .kPeerConnectionIceCandidate
  | .iceStateChanged => .kPeerConnectionIceChange
  | .signalingStateChanged => .kPeerConnectionSignalChange
  | .renegotiationNeeded => .kPeerConnectionRenegotiation

/-- The field that holds the subscription of a kind. -/
def SubscriptionKind.slot (k : SubscriptionKind) (self : PeerConnection) : Option Nat :=
  match k with
  | .streamAdded => self.onaddstream_
  | .streamRemoved => self.onremovestream_
  | .iceCandidate => self.onicecandidate_
  | .iceStateChanged => self.oniceconnectionstatechange_
  | .signalingStateChanged => self.onsignalingstatechange_
  | .renegotiationNeeded => self.onnegotiationneeded_

/-- Whether `On` can build the argument of an ice-candidate event: the text is
empty or parses as JSON.  Every other kind needs nothing of the text. -/
def SubscriptionKind.payloadOk (k : SubscriptionKind) (host : Host) (text : String) : Bool :=
  match k with
  | .iceCandidate => text.isEmpty || (host.JSONParse text).isSome
  | _ => true

/-- One thing that can happen to a constructed `PeerConnection`: a call of a
public operation, a read or write of an accessor, or an event dispatched by an
observer.  Each call carries the answers the engine and the host give during
it. -/
inductive Action where
  | createOffer (eng : Engine) (args : List JsValue)
  | createAnswer (eng : Engine) (args : List JsValue)
  | setLocalDescription (eng : Engine) (host : Host) (args : List JsValue)
  | setRemoteDescription (eng : Engine) (host : Host) (args : List JsValue)
  | addIceCandidate (eng : Engine) (host : Host) (args : List JsValue)
  | getStats (eng : Engine) (args : List JsValue)
  | addStream (eng : Engine) (args : List JsValue)
  | removeStream (eng : Engine) (args : List JsValue)
  | close (eng : Engine)
  | getSignalingState (eng : Engine)
  | getOnRemoveStream
  | getOnNegotiationNeeded
  | getOnIceCandidate
  | getOnIceConnectionStateChange
  | getOnSignalingStateChange
  | getOnAddStream
  | setOnNegotiationNeeded (value : JsValue)
  | setOnIceCandidate (value : JsValue)
  | setOnIceConnectionStateChange (value : JsValue)
  | setOnSignalingStateChange (value : JsValue)
  | setOnAddStream (value : JsValue)
  | onEvent (host : Host) (event : Event)

/-- The run of one action. -/
def Action.run (a : Action) (self : PeerConnection) : Run :=
  match a with
  | .createOffer eng args => CreateOffer eng self args
  | .createAnswer eng args => CreateAnswer eng self args
  | .setLocalDescription eng host args => SetLocalDescription eng host self args
  | .setRemoteDescription eng host args => SetRemoteDescription eng host self args
  | .addIceCandidate eng host args => AddIceCandidate eng host self args
  | .getStats eng args => GetStats eng self args
  | .addStream eng args => AddStream eng self args
  | .removeStream eng args => RemoveStream eng self args
  | .close eng => Close eng self
  | .getSignalingState eng => GetSignalingState eng self
  | .getOnRemoveStream => GetOnRemoveStream self
  | .getOnNegotiationNeeded => GetOnNegotiationNeeded self
  | .getOnIceCandidate => GetOnIceCandidate self
  | .getOnIceConnectionStateChange => GetOnIceConnectionStateChange self
  | .getOnSignalingStateChange => GetOnSignalingStateChange self
  | .getOnAddStream => GetOnAddStream self
  | .setOnNegotiationNeeded value => SetOnNegotiationNeeded self value
  | .setOnIceCandidate value => SetOnIceCandidate self value
  | .setOnIceConnectionStateChange value => SetOnIceConnectionStateChange self value
  | .setOnSignalingStateChange value => SetOnSignalingStateChange self value
  | .setOnAddStream value => SetOnAddStream self value
  | .onEvent host event => On host self event

/-- The fields after a sequence of actions, each run on the fields the one
before left (also where that one ended in a fault). -/
def runAll (actions : List Action) (self : PeerConnection) : PeerConnection :=
  match actions with
  | [] => self
  | a :: rest => runAll rest (a.run self).self

/-! ## Lemmas -/

/-! ### Traces -/

/-- The callbacks invoked by two traces in a row. -/
theorem invoked_append (a b : List Effect) : invoked (a ++ b) = invoked a ++ invoked b := by
  simp [invoked, List.filterMap_append]

/-- The empty trace invokes nothing. -/
theorem invoked_nil : invoked [] = [] := rfl

/-- The callbacks invoked by either of two traces. -/
theorem invoked_ite (c : Prop) [Decidable c] (a b : List Effect) :
    invoked (if c then a else b) = if c then invoked a else invoked b := by
  split <;> rfl

/-- A callback invoked first comes first among the callbacks invoked. -/
theorem invoked_cons_Call (fn : Nat) (argv : List Local) (t : List Effect) :
    invoked (.Call fn argv :: t) = fn :: invoked t := rfl

/-- The effect `SetReference` invokes no callback. -/
theorem invoked_cons_SetReference (t : List Effect) :
    invoked (.SetReference :: t) = invoked t := rfl

/-- The effect `ThrowError` invokes no callback. -/
theorem invoked_cons_ThrowError (v : JsValue) (t : List Effect) :
    invoked ((.ThrowError v) :: t) = invoked t := rfl

/-- The effect `CreatePeerConnection` invokes no callback. -/
theorem invoked_cons_CreatePeerConnection (t : List Effect) :
    invoked (.CreatePeerConnection :: t) = invoked t := rfl

/-- The effect `CreateOffer` invokes no callback. -/
theorem invoked_cons_CreateOffer (t : List Effect) :
    invoked (.CreateOffer :: t) = invoked t := rfl

/-- The effect `CreateAnswer` invokes no callback. -/
theorem invoked_cons_CreateAnswer (t : List Effect) :
    invoked (.CreateAnswer :: t) = invoked t := rfl

/-- The effect `SetLocalDescription` invokes no callback. -/
theorem invoked_cons_SetLocalDescription (d : Option (String × String)) (t : List Effect) :
    invoked ((.SetLocalDescription d) :: t) = invoked t := rfl

/-- The effect `SetRemoteDescription` invokes no callback. -/
theorem invoked_cons_SetRemoteDescription (d : Option (String × String)) (t : List Effect) :
    invoked ((.SetRemoteDescription d) :: t) = invoked t := rfl

/-- The effect `AddIceCandidate` invokes no callback. -/
theorem invoked_cons_AddIceCandidate (c : Option (String × Int × String)) (t : List Effect) :
    invoked ((.AddIceCandidate c) :: t) = invoked t := rfl

/-- The effect `GetStats` invokes no callback. -/
theorem invoked_cons_GetStats (t : List Effect) :
    invoked (.GetStats :: t) = invoked t := rfl

/-- The effect `AddStream` invokes no callback. -/
theorem invoked_cons_AddStream (h : Nat) (t : List Effect) :
    invoked ((.AddStream h) :: t) = invoked t := rfl

/-- The effect `RemoveStream` invokes no callback. -/
theorem invoked_cons_RemoveStream (h : Nat) (t : List Effect) :
    invoked ((.RemoveStream h) :: t) = invoked t := rfl

/-- The effect `Close` invokes no callback. -/
theorem invoked_cons_Close (t : List Effect) :
    invoked (.Close :: t) = invoked t := rfl

/-- Fetching the engine handle invokes no callback. -/
theorem invoked_GetPeerConnection (eng : Engine) (self : PeerConnection) :
    invoked (GetPeerConnection eng self).trace = [] := by
  unfold GetPeerConnection
  split <;> [split; skip] <;> rfl

/-- Fetching the engine handle changes no field but the handle itself. -/
theorem GetPeerConnection_self (eng : Engine) (self : PeerConnection) :
    (GetPeerConnection eng self).self
      = { self with peer_connection_ := (GetPeerConnection eng self).self.peer_connection_ } := by
  unfold GetPeerConnection
  split <;> [split; skip] <;> rfl

/-! ### The dispatcher -/

/-- The tail of `On` leaves the fields it is given as they are. -/
theorem dispatch_self (self : PeerConnection) (fn : Option Nat) (argc : Nat)
    (argv0 : Local) (isError : Bool) : (dispatch self fn argc argv0 isError).self = self := by
  unfold dispatch
  split
  · split <;> rfl
  · split
    · split <;> rfl
    · rfl

/-- Given a set `argv[0]`, the tail of `On` invokes the function it is given,
if any, and no other. -/
theorem invoked_dispatch (self : PeerConnection) (fn : Option Nat) (argc : Nat)
    (v : JsValue) (isError : Bool) :
    invoked (dispatch self fn argc (some v) isError).trace = fn.toList := by
  unfold dispatch
  cases fn <;> cases isError <;> simp [IsEmpty, invoked]

/-- Given a set `argv[0]`, the tail of `On` does not fault. -/
theorem dispatch_fault (self : PeerConnection) (fn : Option Nat) (argc : Nat)
    (v : JsValue) (isError : Bool) :
    (dispatch self fn argc (some v) isError).fault = false := by
  unfold dispatch
  cases fn <;> cases isError <;> simp [IsEmpty]

/-- With no argument to pass and no error to report, the tail of `On` invokes
the function it is given, if any, and no other. -/
theorem invoked_dispatch_noarg (self : PeerConnection) (fn : Option Nat) :
    invoked (dispatch self fn 0 none false).trace = fn.toList := by
  unfold dispatch
  cases fn <;> simp [invoked]

/-- With no argument to pass and no error to report, the tail of `On` does not
fault. -/
theorem dispatch_fault_noarg (self : PeerConnection) (fn : Option Nat) :
    (dispatch self fn 0 none false).fault = false := by
  unfold dispatch
  cases fn <;> simp

/-- With no function to call and no error to report, the tail of `On` does
nothing. -/
theorem dispatch_empty (self : PeerConnection) (argc : Nat) (argv0 : Local) :
    dispatch self none argc argv0 false = ⟨self, [], false, .undefined⟩ := rfl

/-- Parsing invokes no callback. -/
theorem invoked_JSONParseThrows (host : Host) (text : String) :
    invoked (JSONParseThrows host text) = [] := by
  unfold JSONParseThrows
  split <;> rfl

/-- Parsing a text that parses raises nothing. -/
theorem JSONParseThrows_of_parses (host : Host) (text : String) (v : JsValue)
    (h : host.JSONParse text = some v) : JSONParseThrows host text = [] := by
  unfold JSONParseThrows
  rw [h]

/-- The callbacks invoked by a run that comes after effects that invoke none. -/
theorem invoked_after (before : List Effect) (r : Run) (h : invoked before = []) :
    invoked (r.after before).trace = invoked r.trace := by
  simp only [Run.after, invoked, List.filterMap_append] at h ⊢
  rw [h]; rfl

/-- A resolution event of kind `K` empties both callbacks of the slot of `K`.
When its payload can be handed over (any error event, any success event of a
description setter, a success event of offer or answer whose text parses) it
does not fault and invokes what the matching callback held.  When both
callbacks of the slot are empty it does not fault and invokes nothing. -/
theorem On_resolution (host : Host) (K : OpKind) (self : PeerConnection) (ev : Event)
    (h : ev.type = K.successEvent ∨ ev.type = K.errorEvent) :
    (On host self ev).self = K.cleared self
    ∧ ((ev.type = K.successEvent → K.payloadOk host ev.text = true) →
        (On host self ev).fault = false
        ∧ invoked (On host self ev).trace =
            (if ev.type = K.successEvent then (K.successSlot self).toList
             else (K.errorSlot self).toList))
    ∧ (K.successSlot self = none → K.errorSlot self = none →
        (On host self ev).fault = false ∧ invoked (On host self ev).trace = []) := by
  obtain ⟨ty, text, stream⟩ := ev
  simp only at h
  refine ⟨?_, ?_, ?_⟩
  · cases K <;> rcases h with h | h <;> subst h <;>
      simp [OpKind.successEvent, OpKind.errorEvent, OpKind.cleared, On, Run.after,
        dispatch_self]
  · intro hp
    cases K <;> rcases h with h | h <;> subst h <;>
      simp only [OpKind.successEvent, OpKind.errorEvent, OpKind.payloadOk, forall_const,
        Option.isSome_iff_exists, reduceCtorEq, false_implies] at hp <;>
      (try obtain ⟨v, hv⟩ := hp) <;>
      simp [OpKind.successEvent, OpKind.errorEvent, OpKind.successSlot, OpKind.errorSlot,
        On, Run.after, invoked_append, invoked_dispatch, dispatch_fault,
        invoked_dispatch_noarg, dispatch_fault_noarg, invoked_JSONParseThrows, *]
  · intro hs he
    cases K <;> rcases h with h | h <;> subst h <;>
      simp only [OpKind.successSlot, OpKind.errorSlot] at hs he <;>
      simp [OpKind.successEvent, OpKind.errorEvent, On, Run.after, invoked_append,
        invoked_dispatch, dispatch_fault, dispatch_empty, invoked_JSONParseThrows,
        invoked_nil, hs, he]

/-- An offer-ready or answer-ready event whose text does not parse, dispatched
while the success callback is set: `v8::JSON::Parse` raises the host's
SyntaxError, both callbacks of the slot are emptied, and the run ends in a
fault where the empty handle is handed to the callback; nothing is invoked. -/
theorem On_unparsable_success (host : Host) (self : PeerConnection) (s : Nat)
    (text : String) (stream : Nat) (hparse : host.JSONParse text = none) :
    (self.offer_cb_ = some s →
      On host self ⟨.kPeerConnectionCreateOffer, text, stream⟩
        = ⟨OpKind.cleared .offer self, [.ThrowError (host.JSONParseError text)], true,
            .undefined⟩)
    ∧ (self.answer_cb_ = some s →
      On host self ⟨.kPeerConnectionCreateAnswer, text, stream⟩
        = ⟨OpKind.cleared .answer self, [.ThrowError (host.JSONParseError text)], true,
            .undefined⟩) := by
  constructor <;> intro h <;>
    simp [On, Run.after, JSONParseThrows, dispatch, IsEmpty, OpKind.cleared, h, hparse]

/-- Once both callbacks of the slot of `K` are empty, no sequence of resolution
events of kind `K` invokes a callback or faults. -/
theorem OnAll_empty_slot (host : Host) (K : OpKind) (events : List Event) :
    ∀ self : PeerConnection,
      K.successSlot self = none → K.errorSlot self = none →
      (∀ ev ∈ events, ev.type = K.successEvent ∨ ev.type = K.errorEvent) →
      (OnAll host self events).fault = false ∧ invoked (OnAll host self events).trace = [] := by
  induction events with
  | nil => intro self _ _ _; simp [OnAll, invoked]
  | cons ev rest ih =>
    intro self hs he hall
    have hev := hall ev (List.mem_cons_self ev rest)
    obtain ⟨hself, -, hempty⟩ := On_resolution host K self ev hev
    obtain ⟨hf, hinv0⟩ := hempty hs he
    have hcs : K.successSlot (K.cleared self) = none := by cases K <;> rfl
    have hce : K.errorSlot (K.cleared self) = none := by cases K <;> rfl
    have hrest := ih (K.cleared self) hcs hce
      (fun e he => hall e (List.mem_cons_of_mem ev he))
    simp only [OnAll, hf, hself, Bool.false_eq_true, if_false]
    refine ⟨hrest.1, ?_⟩
    simp only [invoked, List.filterMap_append] at hinv0 hrest ⊢
    rw [hinv0, hrest.2]; rfl

/-! ### The start calls -/

/-- The method `Get` never hands back an empty handle. -/
theorem Get_eq_some (obj : JsValue) (key : String) : ∃ v, Get obj key = some v := by
  cases obj <;> simp [Get]

/-- A start call of kind `K` with two function arguments, on a connection
whose engine handle exists or can be created and whose constraints exist,
given an object as description: it does not fault, invokes no callback, and
leaves exactly its own two callbacks in the slot of `K`. -/
theorem start_stores_callbacks (K : OpKind) (eng : Engine) (host : Host)
    (self : PeerConnection) (desc : JsValue) (s e : Nat)
    (hpc : self.peer_connection_ = true ∨ eng.CreatePeerConnection = true)
    (hc : self.constraints_ = true) (hd : IsObject (some desc) = true) :
    (K.start eng host self desc (.function s) (.function e)).fault = false
    ∧ invoked (K.start eng host self desc (.function s) (.function e)).trace = []
    ∧ K.successSlot (K.start eng host self desc (.function s) (.function e)).self = some s
    ∧ K.errorSlot (K.start eng host self desc (.function s) (.function e)).self = some e
    ∧ (K.start eng host self desc (.function s) (.function e)).self.peer_connection_ = true
    ∧ (K.start eng host self desc (.function s) (.function e)).self.constraints_ = true := by
  obtain ⟨tv, htv⟩ := Get_eq_some desc "type"
  obtain ⟨sv, hsv⟩ := Get_eq_some desc "sdp"
  cases K <;> cases hp : self.peer_connection_ <;> simp [hp] at hpc <;>
    cases hcs : eng.CreateSessionDescription (ToString host tv) (ToString host sv) <;>
    simp [OpKind.start, CreateOffer, CreateAnswer, SetLocalDescription, SetRemoteDescription,
      GetPeerConnection, hp, hc, hpc, hd, htv, hsv, hcs, arg, IsEmpty, IsFunction,
      CastFunction, invoked, OpKind.successSlot, OpKind.errorSlot]

/-! ### Arguments -/

/-- A value that is not a function casts to no stored function. -/
theorem CastFunction_eq_none (l : Local) (h : IsFunction l = false) : CastFunction l = none := by
  unfold IsFunction at h
  unfold CastFunction
  split at h <;> simp_all

/-- The handle `info[i]` is never empty. -/
theorem IsEmpty_arg (args : List JsValue) (i : Nat) : IsEmpty (arg args i) = false := by
  simp [arg, IsEmpty]

/-! ### The description setters -/

/-- What `SetLocalDescription` leaves in its slot and in the pending
description once it has its engine handle: nothing is invoked; when the first
argument is an object the slot holds the functions among the second and third
argument and the pending description is the first argument; otherwise the slot
is empty and the pending description is as before. -/
theorem SetLocalDescription_fields (eng : Engine) (host : Host) (self : PeerConnection)
    (args : List JsValue) (hget : (GetPeerConnection eng self).fault = false) :
    invoked (SetLocalDescription eng host self args).trace = []
    ∧ (SetLocalDescription eng host self args).self.local_sdp_cb_
        = (if IsObject (arg args 0) then CastFunction (arg args 1) else none)
    ∧ (SetLocalDescription eng host self args).self.local_sdp_err_cb_
        = (if IsObject (arg args 0) then CastFunction (arg args 2) else none)
    ∧ (SetLocalDescription eng host self args).self.local_sdp_
        = (if IsObject (arg args 0) then arg args 0
           else (GetPeerConnection eng self).self.local_sdp_) := by
  obtain ⟨tv, htv⟩ := Get_eq_some (args.getD 0 .undefined) "type"
  obtain ⟨sv, hsv⟩ := Get_eq_some (args.getD 0 .undefined) "sdp"
  have hg := invoked_GetPeerConnection eng self
  have ha : arg args 0 = some (args.getD 0 .undefined) := rfl
  unfold SetLocalDescription
  simp only [hget, htv, hsv, IsEmpty_arg, Bool.false_eq_true, if_false, Bool.not_false,
    Bool.true_and, Bool.false_or]
  cases h0 : IsObject (arg args 0)
  · simp [invoked_append, invoked_ite, invoked_cons_ThrowError, invoked_nil, hg]
  · cases h1 : IsFunction (arg args 1) <;> cases h2 : IsFunction (arg args 2) <;>
      cases hp : (GetPeerConnection eng self).ptr <;>
      simp [invoked_append, invoked_ite, invoked_cons_ThrowError, invoked_nil, hg,
        invoked_cons_SetLocalDescription, CastFunction_eq_none, h1, h2, ha]

/-- What `SetRemoteDescription` leaves in its slot and in the pending
description once it has its engine handle: nothing is invoked; when the first
argument is an object the slot holds the functions among the second and third
argument and the pending description is the first argument; otherwise the slot
is empty and the pending description is as before. -/
theorem SetRemoteDescription_fields (eng : Engine) (host : Host) (self : PeerConnection)
    (args : List JsValue) (hget : (GetPeerConnection eng self).fault = false) :
    invoked (SetRemoteDescription eng host self args).trace = []
    ∧ (SetRemoteDescription eng host self args).self.remote_sdp_cb_
        = (if IsObject (arg args 0) then CastFunction (arg args 1) else none)
    ∧ (SetRemoteDescription eng host self args).self.remote_sdp_err_cb_
        = (if IsObject (arg args 0) then CastFunction (arg args 2) else none)
    ∧ (SetRemoteDescription eng host self args).self.remote_sdp_
        = (if IsObject (arg args 0) then arg args 0
           else (GetPeerConnection eng self).self.remote_sdp_) := by
  obtain ⟨tv, htv⟩ := Get_eq_some (args.getD 0 .undefined) "type"
  obtain ⟨sv, hsv⟩ := Get_eq_some (args.getD 0 .undefined) "sdp"
  have hg := invoked_GetPeerConnection eng self
  have ha : arg args 0 = some (args.getD 0 .undefined) := rfl
  unfold SetRemoteDescription
  simp only [hget, htv, hsv, IsEmpty_arg, Bool.false_eq_true, if_false, Bool.not_false,
    Bool.true_and, Bool.false_or]
  cases h0 : IsObject (arg args 0)
  · simp [invoked_append, invoked_ite, invoked_cons_ThrowError, invoked_nil, hg]
  · cases h1 : IsFunction (arg args 1) <;> cases h2 : IsFunction (arg args 2) <;>
      cases hp : (GetPeerConnection eng self).ptr <;>
      simp [invoked_append, invoked_ite, invoked_cons_ThrowError, invoked_nil, hg,
        invoked_cons_SetRemoteDescription, CastFunction_eq_none, h1, h2, ha]

/-- The dispatcher never writes the pending descriptions. -/
theorem On_pending (host : Host) (self : PeerConnection) (ev : Event) :
    (On host self ev).self.local_sdp_ = self.local_sdp_
    ∧ (On host self ev).self.remote_sdp_ = self.remote_sdp_ := by
  obtain ⟨ty, text, stream⟩ := ev
  cases ty <;> simp only [On, Run.after] <;> (try split) <;> (try split) <;>
    simp [dispatch_self]

/-! ### The stream-removed subscription -/

/-- Fetching the engine handle leaves `onremovestream_` as it is. -/
theorem GetPeerConnection_onremovestream (eng : Engine) (self : PeerConnection) :
    (GetPeerConnection eng self).self.onremovestream_ = self.onremovestream_ := by
  unfold GetPeerConnection
  split <;> [split; skip] <;> rfl

/-- The dispatcher leaves `onremovestream_` as it is. -/
theorem On_onremovestream (host : Host) (self : PeerConnection) (ev : Event) :
    (On host self ev).self.onremovestream_ = self.onremovestream_ := by
  obtain ⟨ty, text, stream⟩ := ev
  cases ty <;> simp only [On, Run.after] <;> (try split) <;> (try split) <;>
    simp [dispatch_self]

/-- The description setters leave `onremovestream_` as it is. -/
theorem SetDescription_onremovestream (eng : Engine) (host : Host) (self : PeerConnection)
    (args : List JsValue) :
    (SetLocalDescription eng host self args).self.onremovestream_ = self.onremovestream_
    ∧ (SetRemoteDescription eng host self args).self.onremovestream_
        = self.onremovestream_ := by
  obtain ⟨tv, htv⟩ := Get_eq_some (args.getD 0 .undefined) "type"
  obtain ⟨sv, hsv⟩ := Get_eq_some (args.getD 0 .undefined) "sdp"
  have h := GetPeerConnection_onremovestream eng self
  unfold SetLocalDescription SetRemoteDescription
  simp only [htv, hsv, IsEmpty_arg, Bool.false_eq_true, if_false, Bool.not_false,
    Bool.true_and, Bool.false_or]
  cases (GetPeerConnection eng self).fault <;> cases IsObject (arg args 0) <;>
    cases IsFunction (arg args 1) <;> cases IsFunction (arg args 2) <;>
    cases (GetPeerConnection eng self).ptr <;> simp [h]

/-- Adding a candidate changes no field but the engine handle. -/
theorem AddIceCandidate_self (eng : Engine) (host : Host) (self : PeerConnection)
    (args : List JsValue) :
    (AddIceCandidate eng host self args).self = (GetPeerConnection eng self).self := by
  obtain ⟨mv, hmv⟩ := Get_eq_some (args.getD 0 .undefined) "sdpMid"
  obtain ⟨iv, hiv⟩ := Get_eq_some (args.getD 0 .undefined) "sdpMLineIndex"
  obtain ⟨sv, hsv⟩ := Get_eq_some (args.getD 0 .undefined) "candidate"
  unfold AddIceCandidate
  simp only [hmv, hiv, hsv, IsEmpty_arg, Bool.false_eq_true, if_false, Bool.not_false,
    Bool.true_and, Bool.false_or]
  cases (GetPeerConnection eng self).fault <;> cases IsObject (arg args 0) <;>
    cases IsFunction (arg args 1) <;> cases (GetPeerConnection eng self).ptr <;>
    cases CastFunction (arg args 1) <;> simp

/-- No action writes `onremovestream_`. -/
theorem Action.run_onremovestream (a : Action) (self : PeerConnection) :
    (a.run self).self.onremovestream_ = self.onremovestream_ := by
  cases a with
  | createOffer eng args =>
    have h := GetPeerConnection_onremovestream eng
      { self with offer_cb_ := none, offer_err_cb_ := none }
    simp only [Action.run, CreateOffer]
    repeat' split
    all_goals exact h
  | createAnswer eng args =>
    have h := GetPeerConnection_onremovestream eng
      { self with answer_cb_ := none, answer_err_cb_ := none }
    simp only [Action.run, CreateAnswer]
    repeat' split
    all_goals exact h
  | setLocalDescription eng host args => exact (SetDescription_onremovestream eng host self args).1
  | setRemoteDescription eng host args =>
    exact (SetDescription_onremovestream eng host self args).2
  | addIceCandidate eng host args =>
    simp only [Action.run, AddIceCandidate_self]
    exact GetPeerConnection_onremovestream eng self
  | getStats eng args =>
    have h := GetPeerConnection_onremovestream eng self
    simp only [Action.run, GetStats]
    repeat' split
    all_goals exact h
  | addStream eng args =>
    have h := GetPeerConnection_onremovestream eng self
    simp only [Action.run, AddStream]
    repeat' split
    all_goals exact h
  | removeStream eng args =>
    have h := GetPeerConnection_onremovestream eng self
    simp only [Action.run, RemoveStream]
    repeat' split
    all_goals exact h
  | close eng =>
    have h := GetPeerConnection_onremovestream eng self
    simp only [Action.run, Close]
    repeat' split
    all_goals exact h
  | getSignalingState eng =>
    have h := GetPeerConnection_onremovestream eng self
    simp only [Action.run, GetSignalingState]
    repeat' split
    all_goals exact h
  | onEvent host event => exact On_onremovestream host self event
  | setOnNegotiationNeeded value => simp only [Action.run, SetOnNegotiationNeeded]; split <;> rfl
  | setOnIceCandidate value => simp only [Action.run, SetOnIceCandidate]; split <;> rfl
  | setOnIceConnectionStateChange value =>
    simp only [Action.run, SetOnIceConnectionStateChange]; split <;> rfl
  | setOnSignalingStateChange value =>
    simp only [Action.run, SetOnSignalingStateChange]; split <;> rfl
  | setOnAddStream value => simp only [Action.run, SetOnAddStream]; split <;> rfl
  | _ => rfl

/-- No sequence of actions writes `onremovestream_`. -/
theorem runAll_onremovestream (actions : List Action) :
    ∀ self : PeerConnection, (runAll actions self).onremovestream_ = self.onremovestream_ := by
  induction actions with
  | nil => intro self; rfl
  | cons a rest ih =>
    intro self
    simp only [runAll]
    rw [ih, Action.run_onremovestream]

/-! ### Subscriptions -/

/-- An event of a subscription kind other than renegotiation-needed leaves
every field as it is. -/
theorem On_subscription_self (host : Host) (self : PeerConnection) (k : SubscriptionKind)
    (text : String) (stream : Nat) (hk : k ≠ .renegotiationNeeded) :
    (On host self ⟨k.event, text, stream⟩).self = self := by
  cases k <;> simp only [SubscriptionKind.event, On] <;> (try split) <;> (try split) <;>
    simp_all [dispatch_self]

/-- An event of one of the four delivering kinds, with a payload `On` can
build, does not fault and invokes what the subscription of the kind holds. -/
theorem On_subscription_invoked (host : Host) (self : PeerConnection) (k : SubscriptionKind)
    (text : String) (stream : Nat) (hk : k ≠ .renegotiationNeeded)
    (hs : k ≠ .signalingStateChanged) (hp : k.payloadOk host text = true) :
    (On host self ⟨k.event, text, stream⟩).fault = false
    ∧ invoked (On host self ⟨k.event, text, stream⟩).trace = (k.slot self).toList := by
  cases k <;> simp only [SubscriptionKind.event, SubscriptionKind.slot, On] <;>
    simp_all [dispatch_fault, invoked_dispatch, dispatch_fault_noarg, invoked_dispatch_noarg]
  simp only [SubscriptionKind.payloadOk, Bool.or_eq_true] at hp
  cases he : text.isEmpty
  · simp only [he, Bool.false_eq_true, false_or] at hp
    obtain ⟨v, hv⟩ := Option.isSome_iff_exists.mp hp
    simp [hv, dispatch_fault, invoked_dispatch]
  · simp [dispatch_fault, invoked_dispatch]

/-! ## Claims -/

/-- C1: when the slot of an operation kind holds a success callback `s` and an
error callback `e`, the kind's success event, carrying a payload that `On` can
hand over (for offer and answer a serialized session description that
parses), makes `On` invoke `s` once and nothing else (so `e` is not invoked),
the kind's error event makes `On` invoke `e` once, with an error carrying the
event's text, and nothing else, and after either event both callbacks of the
slot are empty.  Neither dispatch faults. -/
theorem C1_resolution_invokes_one_callback (host : Host) (K : OpKind)
    (self : PeerConnection) (s e : Nat) (text errorText : String) (stream : Nat)
    (hs : K.successSlot self = some s) (he : K.errorSlot self = some e)
    (hp : K.payloadOk host text = true) :
    (On host self ⟨K.successEvent, text, stream⟩).trace = [.Call s (K.successArgs host text)]
    ∧ (On host self ⟨K.successEvent, text, stream⟩).fault = false
    ∧ invoked (On host self ⟨K.successEvent, text, stream⟩).trace = [s]
    ∧ K.successSlot (On host self ⟨K.successEvent, text, stream⟩).self = none
    ∧ K.errorSlot (On host self ⟨K.successEvent, text, stream⟩).self = none
    ∧ (On host self ⟨K.errorEvent, errorText, stream⟩).trace
        = [.Call e [some (.error errorText)]]
    ∧ (On host self ⟨K.errorEvent, errorText, stream⟩).fault = false
    ∧ invoked (On host self ⟨K.errorEvent, errorText, stream⟩).trace = [e]
    ∧ K.successSlot (On host self ⟨K.errorEvent, errorText, stream⟩).self = none
    ∧ K.errorSlot (On host self ⟨K.errorEvent, errorText, stream⟩).self = none := by
  cases K <;>
    simp only [OpKind.successSlot, OpKind.errorSlot] at hs he <;>
    simp only [OpKind.payloadOk, Option.isSome_iff_exists] at hp <;>
    (try obtain ⟨v, hv⟩ := hp) <;>
    simp [On, Run.after, JSONParseThrows, dispatch, IsEmpty, invoked, OpKind.successEvent,
      OpKind.errorEvent, OpKind.successSlot, OpKind.errorSlot, OpKind.successArgs, hs, he, *]

/-- C1 at a concrete state: the offer slot holds callbacks 1 and 2. -/
theorem C1_resolution_invokes_one_callback_witness :
    invoked (On sampleHost { PeerConnection.new with offer_cb_ := some 1, offer_err_cb_ := some 2 }
      ⟨.kPeerConnectionCreateOffer, "null", 0⟩).trace = [1]
    ∧ invoked (On sampleHost
      { PeerConnection.new with offer_cb_ := some 1, offer_err_cb_ := some 2 }
      ⟨.kPeerConnectionCreateOfferError, "failed", 0⟩).trace = [2] :=
  have h := C1_resolution_invokes_one_callback sampleHost .offer
    { PeerConnection.new with offer_cb_ := some 1, offer_err_cb_ := some 2 } 1 2
    "null" "failed" 0 rfl rfl rfl
  ⟨h.2.2.1, h.2.2.2.2.2.2.2.1⟩

/-- C2: two start calls of one kind in a row, with callbacks `(s1, e1)` and then
`(s2, e2)`, on a connection whose engine handle exists or can be created, and
then any sequence of resolution events of that kind, the first of which
carries a payload that `On` can hand over when it is a success event (for
offer and answer a serialized session description that parses).  Neither start
call invokes a callback; over the whole event sequence the callbacks invoked
are exactly one, `s2` when the first event is the success event and `e2` when
it is the error event, so `s1` and `e1` are never invoked and no event after
the first invokes anything. -/
theorem C2_second_call_supersedes_first (K : OpKind) (eng1 eng2 : Engine) (host : Host)
    (self : PeerConnection) (desc1 desc2 : JsValue) (s1 e1 s2 e2 : Nat)
    (first : Event) (later : List Event)
    (hpc : self.peer_connection_ = true ∨ eng1.CreatePeerConnection = true)
    (hc : self.constraints_ = true)
    (hd1 : IsObject (some desc1) = true) (hd2 : IsObject (some desc2) = true)
    (hfirst : first.type = K.successEvent ∨ first.type = K.errorEvent)
    (hpayload : first.type = K.successEvent → K.payloadOk host first.text = true)
    (hlater : ∀ ev ∈ later, ev.type = K.successEvent ∨ ev.type = K.errorEvent) :
    (K.start eng1 host self desc1 (.function s1) (.function e1)).fault = false
    ∧ invoked (K.start eng1 host self desc1 (.function s1) (.function e1)).trace = []
    ∧ (K.start eng2 host (K.start eng1 host self desc1 (.function s1) (.function e1)).self
        desc2 (.function s2) (.function e2)).fault = false
    ∧ invoked (K.start eng2 host
        (K.start eng1 host self desc1 (.function s1) (.function e1)).self
        desc2 (.function s2) (.function e2)).trace = []
    ∧ (OnAll host (K.start eng2 host
        (K.start eng1 host self desc1 (.function s1) (.function e1)).self
        desc2 (.function s2) (.function e2)).self (first :: later)).fault = false
    ∧ invoked (On host (K.start eng2 host
        (K.start eng1 host self desc1 (.function s1) (.function e1)).self
        desc2 (.function s2) (.function e2)).self first).trace
        = [if first.type = K.successEvent then s2 else e2]
    ∧ invoked (OnAll host (K.start eng2 host
        (K.start eng1 host self desc1 (.function s1) (.function e1)).self
        desc2 (.function s2) (.function e2)).self (first :: later)).trace
        = [if first.type = K.successEvent then s2 else e2] := by
  obtain ⟨f1, i1, -, -, p1, c1⟩ :=
    start_stores_callbacks K eng1 host self desc1 s1 e1 hpc hc hd1
  obtain ⟨f2, i2, ss2, es2, -, -⟩ :=
    start_stores_callbacks K eng2 host
      (K.start eng1 host self desc1 (.function s1) (.function e1)).self desc2 s2 e2
      (Or.inl p1) c1 hd2
  generalize (K.start eng2 host (K.start eng1 host self desc1 (.function s1)
    (.function e1)).self desc2 (.function s2) (.function e2)).self = mid at ss2 es2
  obtain ⟨hself, hok, -⟩ := On_resolution host K mid first hfirst
  obtain ⟨hf, hinv⟩ := hok hpayload
  have hcs : K.successSlot (K.cleared mid) = none := by cases K <;> rfl
  have hce : K.errorSlot (K.cleared mid) = none := by cases K <;> rfl
  obtain ⟨hrf, hri⟩ := OnAll_empty_slot host K later (K.cleared mid) hcs hce hlater
  have hone : invoked (On host mid first).trace
      = [if first.type = K.successEvent then s2 else e2] := by
    rw [hinv, ss2, es2]; split <;> rfl
  refine ⟨f1, i1, f2, i2, ?_, hone, ?_⟩
  · simp only [OnAll, hf, hself, Bool.false_eq_true, if_false]
    exact hrf
  · simp only [OnAll, hf, hself, Bool.false_eq_true, if_false]
    simp only [invoked, List.filterMap_append] at hone hri ⊢
    rw [hone, hri]; rfl

/-- C2 at a concrete input: `createOffer(f1, f2)`, then `createOffer(f3, f4)` on
a fresh connection, then an offer-ready event followed by an offer-error
event: only callback 3 is invoked. -/
theorem C2_second_call_supersedes_first_witness :
    invoked (OnAll sampleHost (OpKind.start .offer acceptingEngine sampleHost
        (OpKind.start .offer acceptingEngine sampleHost PeerConnection.new (.object [])
          (.function 1) (.function 2)).self
        (.object []) (.function 3) (.function 4)).self
        [⟨.kPeerConnectionCreateOffer, "null", 0⟩,
         ⟨.kPeerConnectionCreateOfferError, "late", 0⟩]).trace = [3] :=
  (C2_second_call_supersedes_first .offer acceptingEngine acceptingEngine sampleHost
    PeerConnection.new (.object []) (.object []) 1 2 3 4
    ⟨.kPeerConnectionCreateOffer, "null", 0⟩ [⟨.kPeerConnectionCreateOfferError, "late", 0⟩]
    (Or.inr rfl) rfl rfl rfl (Or.inl rfl) (fun _ => rfl)
    (by intro ev hev; simp at hev; subst hev; exact Or.inr rfl)).2.2.2.2.2.2

/-- C3, counterexample: on a freshly constructed connection the offer slot is
empty, and dispatching an offer-error event with the text "boom" raises an
error: `On` throws an error object carrying that text. -/
theorem C3_counterexample :
    OpKind.errorSlot .offer PeerConnection.new = none
    ∧ OpKind.successSlot .offer PeerConnection.new = none
    ∧ thrown (On sampleHost PeerConnection.new
        ⟨.kPeerConnectionCreateOfferError, "boom", 0⟩).trace = [.error "boom"] :=
  ⟨rfl, rfl, rfl⟩

/-- C3, amended: when the matching callback is empty as `On` dispatches a
resolution event, no callback is invoked, the dispatch does not fault, both
callbacks of the kind are empty afterwards and every other field is as before
(so the fields are unchanged when the whole slot was empty).  A success event
whose payload `On` can hand over (for offer and answer a text that parses)
performs no effect at all; an error event throws an error carrying the
event's text. -/
theorem C3_empty_slot_drops_or_throws (host : Host) (K : OpKind) (self : PeerConnection)
    (text : String) (stream : Nat) :
    (K.successSlot self = none →
      (On host self ⟨K.successEvent, text, stream⟩).self = K.cleared self
      ∧ (On host self ⟨K.successEvent, text, stream⟩).fault = false
      ∧ invoked (On host self ⟨K.successEvent, text, stream⟩).trace = [])
    ∧ (K.successSlot self = none → K.payloadOk host text = true →
      On host self ⟨K.successEvent, text, stream⟩ = ⟨K.cleared self, [], false, .undefined⟩)
    ∧ (K.errorSlot self = none →
      On host self ⟨K.errorEvent, text, stream⟩
        = ⟨K.cleared self, [.ThrowError (.error text)], false, .undefined⟩
      ∧ invoked (On host self ⟨K.errorEvent, text, stream⟩).trace = [])
    ∧ (K.successSlot self = none → K.errorSlot self = none → K.cleared self = self) := by
  refine ⟨?_, ?_, ?_, ?_⟩
  · intro hs
    cases K <;> simp only [OpKind.successSlot] at hs <;>
      simp [On, Run.after, dispatch, OpKind.successEvent, OpKind.cleared, hs, invoked_append,
        invoked_JSONParseThrows, invoked_nil]
  · intro hs hp
    cases K <;> simp only [OpKind.successSlot] at hs <;>
      simp only [OpKind.payloadOk, Option.isSome_iff_exists] at hp <;>
      (try obtain ⟨v, hv⟩ := hp) <;>
      simp [On, Run.after, JSONParseThrows, dispatch, OpKind.successEvent, OpKind.cleared,
        hs, *]
  · intro he
    cases K <;> simp only [OpKind.errorSlot] at he <;>
      simp [On, dispatch, OpKind.errorEvent, OpKind.cleared, he, invoked]
  · intro hs he
    cases self
    cases K <;> simp only [OpKind.successSlot, OpKind.errorSlot] at hs he <;>
      simp [OpKind.cleared, hs, he]

/-- C3, amended, at a concrete state: a fresh connection and the two resolution
events of set-remote-description. -/
theorem C3_empty_slot_drops_or_throws_witness :
    On sampleHost PeerConnection.new ⟨.kPeerConnectionSetRemoteDescription, "", 0⟩
      = ⟨PeerConnection.new, [], false, .undefined⟩
    ∧ On sampleHost PeerConnection.new ⟨.kPeerConnectionSetRemoteDescriptionError, "bad", 0⟩
      = ⟨PeerConnection.new, [.ThrowError (.error "bad")], false, .undefined⟩ :=
  have h := C3_empty_slot_drops_or_throws sampleHost .setRemoteDescription
    PeerConnection.new
  ⟨(h "" 0).2.1 rfl rfl, ((h "bad" 0).2.2.1 rfl).1⟩

/-- C4, the code at a failing input: `setLocalDescription({type: "offer",
sdp: 5})` and `setRemoteDescription({type: "offer", sdp: 5})` on a fresh
connection, with an engine that builds no description from that text.  The
run throws "Invalid SessionDescription" for the field that is not text, goes on,
throws for the failed construction, and still calls the engine's
`SetLocalDescription` (`SetRemoteDescription`), with a null description. -/
theorem C4_malformed_description_reaches_engine :
    (SetLocalDescription refusingEngine sampleHost PeerConnection.new
        [.object [("type", .string "offer"), ("sdp", .number 5)]]).trace
      = [.SetReference, .CreatePeerConnection,
         .ThrowError (.error "Invalid SessionDescription"),
         .ThrowError (.error "webrtc::CreateSessionDescription failure"),
         .SetLocalDescription none]
    ∧ (SetRemoteDescription refusingEngine sampleHost PeerConnection.new
        [.object [("type", .string "offer"), ("sdp", .number 5)]]).trace
      = [.SetReference, .CreatePeerConnection,
         .ThrowError (.error "Invalid SessionDescription"),
         .ThrowError (.error "webrtc::CreateSessionDescription failure"),
         .SetRemoteDescription none] :=
  ⟨rfl, rfl⟩

/-- C5, counterexample: the local-description slot holds callbacks 1 and 2 of
an earlier call; `setLocalDescription({type: "offer", sdp: "garbage"}, f3, f4)`
fails in the engine-side construction of the description, and afterwards the
slot holds callbacks 3 and 4: the earlier callbacks were removed and those of
the failing call were stored. -/
theorem C5_counterexample :
    thrown (SetLocalDescription refusingEngine sampleHost
        { PeerConnection.new with
          peer_connection_ := true, local_sdp_cb_ := some 1, local_sdp_err_cb_ := some 2 }
        [.object [("type", .string "offer"), ("sdp", .string "garbage")],
         .function 3, .function 4]).trace
      = [.error "webrtc::CreateSessionDescription failure"]
    ∧ (SetLocalDescription refusingEngine sampleHost
        { PeerConnection.new with
          peer_connection_ := true, local_sdp_cb_ := some 1, local_sdp_err_cb_ := some 2 }
        [.object [("type", .string "offer"), ("sdp", .string "garbage")],
         .function 3, .function 4]).self.local_sdp_cb_ = some 3
    ∧ (SetLocalDescription refusingEngine sampleHost
        { PeerConnection.new with
          peer_connection_ := true, local_sdp_cb_ := some 1, local_sdp_err_cb_ := some 2 }
        [.object [("type", .string "offer"), ("sdp", .string "garbage")],
         .function 3, .function 4]).self.local_sdp_err_cb_ = some 4 :=
  ⟨rfl, rfl, rfl⟩

/-- C5, amended: a call of `SetLocalDescription` or `SetRemoteDescription` that
gets its engine handle invokes no callback and empties the slot of its kind
before it validates anything, so whether or not the call then fails, each
callback of the slot is afterwards either empty or the function passed to this
call, never one kept from an earlier call.  When the description is an object
with text `type` and `sdp` and the engine builds no description from them, the
slot holds exactly the functions passed to the failing call. -/
theorem C5_failing_call_replaces_slot (eng : Engine) (host : Host) (self : PeerConnection)
    (args : List JsValue)
    (hget : (GetPeerConnection eng self).fault = false) :
    invoked (SetLocalDescription eng host self args).trace = []
    ∧ ((SetLocalDescription eng host self args).self.local_sdp_cb_ = none
      ∨ (SetLocalDescription eng host self args).self.local_sdp_cb_
          = CastFunction (arg args 1))
    ∧ ((SetLocalDescription eng host self args).self.local_sdp_err_cb_ = none
      ∨ (SetLocalDescription eng host self args).self.local_sdp_err_cb_
          = CastFunction (arg args 2))
    ∧ invoked (SetRemoteDescription eng host self args).trace = []
    ∧ ((SetRemoteDescription eng host self args).self.remote_sdp_cb_ = none
      ∨ (SetRemoteDescription eng host self args).self.remote_sdp_cb_
          = CastFunction (arg args 1))
    ∧ ((SetRemoteDescription eng host self args).self.remote_sdp_err_cb_ = none
      ∨ (SetRemoteDescription eng host self args).self.remote_sdp_err_cb_
          = CastFunction (arg args 2))
    ∧ (∀ fields type sdp, arg args 0 = some (.object fields) →
        lookupField fields "type" = .string type → lookupField fields "sdp" = .string sdp →
        eng.CreateSessionDescription type sdp = false →
        (SetLocalDescription eng host self args).self.local_sdp_cb_
            = CastFunction (arg args 1)
        ∧ (SetLocalDescription eng host self args).self.local_sdp_err_cb_
            = CastFunction (arg args 2)
        ∧ (SetRemoteDescription eng host self args).self.remote_sdp_cb_
            = CastFunction (arg args 1)
        ∧ (SetRemoteDescription eng host self args).self.remote_sdp_err_cb_
            = CastFunction (arg args 2)) := by
  obtain ⟨li, ls, le, -⟩ := SetLocalDescription_fields eng host self args hget
  obtain ⟨ri, rs, re, -⟩ := SetRemoteDescription_fields eng host self args hget
  refine ⟨li, ?_, ?_, ri, ?_, ?_, ?_⟩
  · rw [ls]; split <;> simp
  · rw [le]; split <;> simp
  · rw [rs]; split <;> simp
  · rw [re]; split <;> simp
  · intro fields type sdp h0 _ _ _
    have hobj : IsObject (arg args 0) = true := by rw [h0]; rfl
    rw [ls, le, rs, re]
    simp [hobj]

/-- C5, amended, at a concrete input: the call of the counterexample, whose
description the engine does not build. -/
theorem C5_failing_call_replaces_slot_witness :
    (SetLocalDescription refusingEngine sampleHost
        { PeerConnection.new with
          peer_connection_ := true, local_sdp_cb_ := some 1, local_sdp_err_cb_ := some 2 }
        [.object [("type", .string "offer"), ("sdp", .string "garbage")],
         .function 3, .function 4]).self.local_sdp_cb_ = some 3
    ∧ (SetLocalDescription refusingEngine sampleHost
        { PeerConnection.new with
          peer_connection_ := true, local_sdp_cb_ := some 1, local_sdp_err_cb_ := some 2 }
        [.object [("type", .string "offer"), ("sdp", .string "garbage")],
         .function 3, .function 4]).self.local_sdp_err_cb_ = some 4 :=
  have h := (C5_failing_call_replaces_slot refusingEngine sampleHost
    { PeerConnection.new with
      peer_connection_ := true, local_sdp_cb_ := some 1, local_sdp_err_cb_ := some 2 }
    [.object [("type", .string "offer"), ("sdp", .string "garbage")],
     .function 3, .function 4] rfl).2.2.2.2.2.2
    [("type", .string "offer"), ("sdp", .string "garbage")] "offer" "garbage" rfl rfl rfl rfl
  ⟨h.1, h.2.1⟩

/-- C6, counterexample: `setLocalDescription({type: "offer", sdp: "v=0"})` is
accepted on a fresh connection and the description is retained as pending;
after the confirmation event is dispatched through `On` the pending local
description is still that description, not empty. -/
theorem C6_counterexample :
    (SetLocalDescription acceptingEngine sampleHost PeerConnection.new
        [.object [("type", .string "offer"), ("sdp", .string "v=0")]]).trace
      = [.SetReference, .CreatePeerConnection, .SetLocalDescription (some ("offer", "v=0"))]
    ∧ (On sampleHost
        (SetLocalDescription acceptingEngine sampleHost PeerConnection.new
          [.object [("type", .string "offer"), ("sdp", .string "v=0")]]).self
        ⟨.kPeerConnectionSetLocalDescription, "", 0⟩).self.local_sdp_
      = some (.object [("type", .string "offer"), ("sdp", .string "v=0")]) :=
  ⟨rfl, rfl⟩

/-- C6, amended: after `SetLocalDescription` (resp. `SetRemoteDescription`) has
taken an object as description and retained it as pending, dispatching the
matching confirmation event or the matching rejection event through `On`
leaves the pending local (resp. remote) description as it was, still holding
that object; `On` empties the callback slot only. -/
theorem C6_pending_description_kept (eng : Engine) (host : Host) (self : PeerConnection)
    (desc : JsValue) (rest : List JsValue) (text : String) (stream : Nat)
    (hget : (GetPeerConnection eng self).fault = false)
    (hd : IsObject (some desc) = true) :
    (SetLocalDescription eng host self (desc :: rest)).self.local_sdp_ = some desc
    ∧ (On host (SetLocalDescription eng host self (desc :: rest)).self
        ⟨.kPeerConnectionSetLocalDescription, text, stream⟩).self.local_sdp_ = some desc
    ∧ (On host (SetLocalDescription eng host self (desc :: rest)).self
        ⟨.kPeerConnectionSetLocalDescriptionError, text, stream⟩).self.local_sdp_ = some desc
    ∧ (SetRemoteDescription eng host self (desc :: rest)).self.remote_sdp_ = some desc
    ∧ (On host (SetRemoteDescription eng host self (desc :: rest)).self
        ⟨.kPeerConnectionSetRemoteDescription, text, stream⟩).self.remote_sdp_ = some desc
    ∧ (On host (SetRemoteDescription eng host self (desc :: rest)).self
        ⟨.kPeerConnectionSetRemoteDescriptionError, text, stream⟩).self.remote_sdp_
        = some desc := by
  have ha : arg (desc :: rest) 0 = some desc := rfl
  obtain ⟨-, -, -, lp⟩ := SetLocalDescription_fields eng host self (desc :: rest) hget
  obtain ⟨-, -, -, rp⟩ := SetRemoteDescription_fields eng host self (desc :: rest) hget
  rw [ha] at lp rp
  simp only [hd, if_true] at lp rp
  refine ⟨lp, ?_, ?_, rp, ?_, ?_⟩
  · rw [(On_pending host _ _).1, lp]
  · rw [(On_pending host _ _).1, lp]
  · rw [(On_pending host _ _).2, rp]
  · rw [(On_pending host _ _).2, rp]

/-- C6, amended, at a concrete input: an accepted remote answer followed by the
engine's rejection event. -/
theorem C6_pending_description_kept_witness :
    (On sampleHost
        (SetRemoteDescription acceptingEngine sampleHost PeerConnection.new
          [.object [("type", .string "answer"), ("sdp", .string "v=0")]]).self
        ⟨.kPeerConnectionSetRemoteDescriptionError, "m-line mismatch", 0⟩).self.remote_sdp_
      = some (.object [("type", .string "answer"), ("sdp", .string "v=0")]) :=
  (C6_pending_description_kept acceptingEngine sampleHost PeerConnection.new
    (.object [("type", .string "answer"), ("sdp", .string "v=0")]) [] "m-line mismatch" 0
    rfl rfl).2.2.2.2.2

/-- C7: a `GetStats` call given a success callback `f`, on a connection whose
engine handle exists or can be created, in which the engine's `GetStats`
returns false: the call does not fault, `f` is the only callback invoked, it
is invoked once, after the engine call and with the single argument `null`,
nothing is thrown, and the stats slot is empty when the call returns. -/
theorem C7_getStats_refused_fires_null (eng : Engine) (self : PeerConnection) (f : Nat)
    (rest : List JsValue)
    (hpc : self.peer_connection_ = true
      ∨ (self.constraints_ = true ∧ eng.CreatePeerConnection = true))
    (hrefused : eng.GetStats = false) :
    (GetStats eng self (.function f :: rest)).fault = false
    ∧ (GetStats eng self (.function f :: rest)).trace
        = (GetPeerConnection eng self).trace ++ [.GetStats, .Call f [some .null]]
    ∧ invoked (GetStats eng self (.function f :: rest)).trace = [f]
    ∧ thrown (GetStats eng self (.function f :: rest)).trace = []
    ∧ (GetStats eng self (.function f :: rest)).self.onstats_ = none := by
  cases hp : self.peer_connection_ <;> simp [hp] at hpc <;>
    simp [GetStats, GetPeerConnection, hp, hpc, hrefused, arg, IsEmpty, IsFunction,
      CastFunction, invoked, thrown]

/-- C7 at a concrete input: `getStats(f7)` on a fresh connection whose engine
refuses the request. -/
theorem C7_getStats_refused_fires_null_witness :
    (GetStats refusingEngine PeerConnection.new [.function 7]).trace
        = [.SetReference, .CreatePeerConnection, .GetStats, .Call 7 [some .null]]
    ∧ (GetStats refusingEngine PeerConnection.new [.function 7]).self.onstats_ = none :=
  have h := C7_getStats_refused_fires_null refusingEngine PeerConnection.new 7 []
    (Or.inr ⟨rfl, rfl⟩) rfl
  ⟨h.2.1, h.2.2.2.2⟩

/-- C8, the code at a failing input: the stats slot holds callback 7 and two
stats-ready events are dispatched with no `GetStats` call in between.  After
the first event the stats slot still holds callback 7, and the second event
invokes it again: the callback is invoked twice. -/
theorem C8_stats_slot_not_cleared :
    (On sampleHost { PeerConnection.new with onstats_ := some 7 }
        ⟨.kPeerConnectionStats, "", 0⟩).self.onstats_ = some 7
    ∧ (On sampleHost
        (On sampleHost { PeerConnection.new with onstats_ := some 7 }
          ⟨.kPeerConnectionStats, "", 0⟩).self
        ⟨.kPeerConnectionStats, "", 0⟩).trace = [.Call 7 [some .null]]
    ∧ invoked (OnAll sampleHost { PeerConnection.new with onstats_ := some 7 }
        [⟨.kPeerConnectionStats, "", 0⟩, ⟨.kPeerConnectionStats, "", 0⟩]).trace = [7, 7] :=
  ⟨rfl, rfl, rfl⟩

/-- C9, counterexample: the `signalingState` query on a freshly constructed
connection, with an engine that can create the handle and reports the stable
state, creates the engine handle and returns "stable". -/
theorem C9_counterexample :
    PeerConnection.new.peer_connection_ = false
    ∧ (GetSignalingState acceptingEngine PeerConnection.new).value = .string "stable"
    ∧ (GetSignalingState acceptingEngine PeerConnection.new).self.peer_connection_ = true
    ∧ (GetSignalingState acceptingEngine PeerConnection.new).trace
        = [.SetReference, .CreatePeerConnection] :=
  ⟨rfl, rfl, rfl, rfl⟩

/-- C9, amended: on a freshly constructed connection the `signalingState` query
first asks the engine for a handle.  When the engine gives one, the handle
exists after the query and the result is the label of the engine's current
signaling state.  When the engine gives none, the result is undefined, nothing
is thrown, and the handle still does not exist after the query.  In both cases
the query does not fault, throws nothing and invokes no callback. -/
theorem C9_signalingState_creates_handle (eng : Engine) :
    (GetSignalingState eng PeerConnection.new).fault = false
    ∧ (GetSignalingState eng PeerConnection.new).trace = [.SetReference, .CreatePeerConnection]
    ∧ (GetSignalingState eng PeerConnection.new).self.peer_connection_
        = eng.CreatePeerConnection
    ∧ (eng.CreatePeerConnection = true →
        (GetSignalingState eng PeerConnection.new).value
          = .string (SignalingState.label eng.signaling_state))
    ∧ (eng.CreatePeerConnection = false →
        (GetSignalingState eng PeerConnection.new).value = .undefined) := by
  cases hc : eng.CreatePeerConnection <;> cases hs : eng.signaling_state <;>
    simp [GetSignalingState, GetPeerConnection, PeerConnection.new, hc, hs,
      SignalingState.label]

/-- C9, amended, at a concrete input: an engine that cannot create the handle,
and one that can. -/
theorem C9_signalingState_creates_handle_witness :
    (GetSignalingState { acceptingEngine with CreatePeerConnection := false }
        PeerConnection.new).value = .undefined
    ∧ (GetSignalingState { acceptingEngine with signaling_state := .kHaveLocalOffer }
        PeerConnection.new).value = .string "have-local-offer" :=
  ⟨(C9_signalingState_creates_handle
      { acceptingEngine with CreatePeerConnection := false }).2.2.2.2 rfl,
   (C9_signalingState_creates_handle
      { acceptingEngine with signaling_state := .kHaveLocalOffer }).2.2.2.1 rfl⟩

/-- C10, the code at two failing inputs, `addIceCandidate(candidate, f9)` on a
fresh connection.  First, a well-formed candidate that the engine parses and
then refuses to add: the call throws "Failed to add ICE candidate" and still
invokes `f9`.  Second, a candidate whose `sdpMLineIndex` is the text "x", with
an engine that accepts every candidate: the call throws "Invalid
sdpMLineIndex", still calls the engine's `AddIceCandidate` (with the index
converted to 0), and still invokes `f9`. -/
theorem C10_failure_still_invokes_callback :
    (AddIceCandidate { acceptingEngine with AddIceCandidate := fun _ => false } sampleHost
        PeerConnection.new
        [.object [("sdpMid", .string "audio"), ("sdpMLineIndex", .number 0),
                  ("candidate", .string "candidate:1 1 udp 1 10.0.0.1 9 typ host")],
         .function 9]).trace
      = [.SetReference, .CreatePeerConnection,
         .AddIceCandidate (some ("audio", 0, "candidate:1 1 udp 1 10.0.0.1 9 typ host")),
         .ThrowError (.error "Failed to add ICE candidate"),
         .Call 9 []]
    ∧ (AddIceCandidate acceptingEngine sampleHost PeerConnection.new
        [.object [("sdpMid", .string "audio"), ("sdpMLineIndex", .string "x"),
                  ("candidate", .string "candidate:1 1 udp 1 10.0.0.1 9 typ host")],
         .function 9]).trace
      = [.SetReference, .CreatePeerConnection,
         .ThrowError (.error "Invalid sdpMLineIndex"),
         .AddIceCandidate (some ("audio", 0, "candidate:1 1 udp 1 10.0.0.1 9 typ host")),
         .Call 9 []] :=
  ⟨rfl, rfl⟩

/-- C11, counterexample: the renegotiation-needed subscription holds callback 5.
Dispatching one renegotiation-needed event through `On` invokes it and leaves
the subscription empty, so of two consecutive events only the first invokes
the handler. -/
theorem C11_counterexample :
    (On sampleHost { PeerConnection.new with onnegotiationneeded_ := some 5 }
        ⟨.kPeerConnectionRenegotiation, "", 0⟩).trace = [.Call 5 []]
    ∧ (On sampleHost { PeerConnection.new with onnegotiationneeded_ := some 5 }
        ⟨.kPeerConnectionRenegotiation, "", 0⟩).self.onnegotiationneeded_ = none
    ∧ invoked (OnAll sampleHost { PeerConnection.new with onnegotiationneeded_ := some 5 }
        [⟨.kPeerConnectionRenegotiation, "", 0⟩,
         ⟨.kPeerConnectionRenegotiation, "", 0⟩]).trace = [5] :=
  ⟨rfl, rfl, rfl⟩

/-- C11, amended: for every bridge state, dispatching an event of the kinds
stream-added, stream-removed, ice-candidate, ice-state-changed or
signaling-state-changed through `On` leaves every field, and so every
subscription, as it was.  For the first four of these kinds, when `On` can
build the payload (an ice-candidate text is empty or parses), each of two
consecutive events invokes what the subscription of the kind holds.  A
signaling-state-changed event performs no effect.  A renegotiation-needed
event invokes what `onnegotiationneeded_` holds and empties that subscription,
every other field staying as it was, so of two consecutive events only the
first invokes the handler. -/
theorem C11_subscriptions_on_dispatch (host : Host) (self : PeerConnection)
    (k : SubscriptionKind) (text text2 : String) (stream stream2 : Nat) :
    (k ≠ .renegotiationNeeded → (On host self ⟨k.event, text, stream⟩).self = self)
    ∧ (k ≠ .renegotiationNeeded → k ≠ .signalingStateChanged →
        k.payloadOk host text = true → k.payloadOk host text2 = true →
        invoked (On host self ⟨k.event, text, stream⟩).trace = (k.slot self).toList
        ∧ (OnAll host self [⟨k.event, text, stream⟩, ⟨k.event, text2, stream2⟩]).fault = false
        ∧ invoked (OnAll host self
            [⟨k.event, text, stream⟩, ⟨k.event, text2, stream2⟩]).trace
          = (k.slot self).toList ++ (k.slot self).toList)
    ∧ On host self ⟨.kPeerConnectionSignalChange, text, stream⟩ = ⟨self, [], false, .undefined⟩
    ∧ (On host self ⟨.kPeerConnectionRenegotiation, text, stream⟩).self
        = { self with onnegotiationneeded_ := none }
    ∧ invoked (On host self ⟨.kPeerConnectionRenegotiation, text, stream⟩).trace
        = self.onnegotiationneeded_.toList
    ∧ invoked (OnAll host self [⟨.kPeerConnectionRenegotiation, text, stream⟩,
        ⟨.kPeerConnectionRenegotiation, text2, stream2⟩]).trace
        = self.onnegotiationneeded_.toList := by
  refine ⟨On_subscription_self host self k text stream, ?_, ?_, ?_, ?_, ?_⟩
  · intro hk hs hp hp2
    obtain ⟨f1, i1⟩ := On_subscription_invoked host self k text stream hk hs hp
    obtain ⟨f2, i2⟩ := On_subscription_invoked host self k text2 stream2 hk hs hp2
    have hself := On_subscription_self host self k text stream hk
    refine ⟨i1, ?_, ?_⟩
    · simp [OnAll, f1, f2, hself]
    · simp [OnAll, f1, f2, hself, invoked_append, i1, i2, invoked_nil]
  · simp [On, dispatch]
  · simp [On, dispatch_self]
  · simp [On, invoked_dispatch_noarg]
  · simp [OnAll, On, dispatch_self, invoked_dispatch_noarg, invoked_append, invoked_nil,
      dispatch_fault_noarg]

/-- C11, amended, at a concrete state: the ice-candidate subscription holds
callback 3 and two ice-candidate events arrive, one with the text "null" and
one with an empty text. -/
theorem C11_subscriptions_on_dispatch_witness :
    invoked (OnAll sampleHost { PeerConnection.new with onicecandidate_ := some 3 }
        [⟨.kPeerConnectionIceCandidate, "null", 0⟩,
         ⟨.kPeerConnectionIceCandidate, "", 0⟩]).trace = [3, 3] :=
  ((C11_subscriptions_on_dispatch sampleHost
      { PeerConnection.new with onicecandidate_ := some 3 } .iceCandidate "null" "" 0 0).2.1
    (by decide) (by decide) rfl rfl).2.2

/-- C12, counterexample: `SetOnSignalingStateChange` stores callback 4 on a
fresh connection; dispatching the signaling-state-change event through `On`
performs no effect, so the callback is not invoked. -/
theorem C12_counterexample :
    (SetOnSignalingStateChange PeerConnection.new (.function 4)).self.onsignalingstatechange_
      = some 4
    ∧ (On sampleHost (SetOnSignalingStateChange PeerConnection.new (.function 4)).self
        ⟨.kPeerConnectionSignalChange, "", 0⟩).trace = [] :=
  ⟨rfl, rfl⟩

/-- C12, amended: for every bridge state in which `SetOnSignalingStateChange`
has stored a function `f`, the function stays stored and is what the
`onsignalingstatechange` getter returns, and dispatching the engine's
signaling-state-change event through `On` invokes no callback: it performs no
effect and leaves every field as it was. -/
theorem C12_signaling_change_not_delivered (host : Host) (self : PeerConnection) (f : Nat)
    (text : String) (stream : Nat) :
    (SetOnSignalingStateChange self (.function f)).self.onsignalingstatechange_ = some f
    ∧ (GetOnSignalingStateChange (SetOnSignalingStateChange self (.function f)).self).value
        = .function f
    ∧ On host (SetOnSignalingStateChange self (.function f)).self
        ⟨.kPeerConnectionSignalChange, text, stream⟩
      = ⟨(SetOnSignalingStateChange self (.function f)).self, [], false, .undefined⟩
    ∧ invoked (On host (SetOnSignalingStateChange self (.function f)).self
        ⟨.kPeerConnectionSignalChange, text, stream⟩).trace = [] := by
  simp [SetOnSignalingStateChange, GetOnSignalingStateChange, returnFunction, IsEmpty,
    IsFunction, CastFunction, On, dispatch, invoked]

/-- C13: in every state reached from construction by any sequence of public
operations, accessor reads and writes, and dispatched events, the
stream-removed subscription `onremovestream_` is empty and the `onremovestream`
getter returns undefined; dispatching a stream-removed event through `On` in
such a state does not fault, performs no effect, and so invokes no callback. -/
theorem C13_onremovestream_never_set (actions : List Action) (host : Host)
    (text : String) (stream : Nat) :
    (runAll actions PeerConnection.new).onremovestream_ = none
    ∧ (GetOnRemoveStream (runAll actions PeerConnection.new)).value = .undefined
    ∧ (On host (runAll actions PeerConnection.new)
        ⟨.kPeerConnectionRemoveStream, text, stream⟩).fault = false
    ∧ (On host (runAll actions PeerConnection.new)
        ⟨.kPeerConnectionRemoveStream, text, stream⟩).trace = []
    ∧ invoked (On host (runAll actions PeerConnection.new)
        ⟨.kPeerConnectionRemoveStream, text, stream⟩).trace = [] := by
  have h : (runAll actions PeerConnection.new).onremovestream_ = none :=
    runAll_onremovestream actions PeerConnection.new
  simp [GetOnRemoveStream, returnFunction, On, dispatch, invoked, h]

end WebRtcJs
